import Mathlib

/-!
Verification development for the Cookie Clicker simulation engine
(`cookie_clicker_sim`): a shallow embedding in Lean 4 of the engine's core
data model and operations, translated from the Python sources under
`cookie_clicker_sim/core` and `cookie_clicker_sim/engines`.

Conventions of the embedding:
* Python floats are modelled as exact rationals (`ℚ`); the real-valued
  prestige formula (a cube root) is modelled over `ℝ`.
* Python dicts are modelled as association lists (`List (String × _)`)
  preserving insertion order, as CPython dicts do; Python sets of strings
  are modelled as duplicate-free lists.
* Mutable objects are modelled by explicit state passing: a method that
  mutates `self` becomes a function returning the updated value.
* The mutable `unlocked` / `bought` flags that the Python code stores on
  the module-level upgrade catalog objects (shared by every `GameState`)
  are modelled by a separate `CatalogFlags` state that is threaded
  explicitly, so that the sharing is visible in the model.
-/

namespace CookieClicker

/-- `constants.PRESTIGE_BASE`. -/
def PRESTIGE_BASE : ℚ := 1000000000000

/-- `constants.HC_FACTOR`. -/
def HC_FACTOR : ℕ := 3

/-- `constants.BUILDING_PRICE_MULTIPLIER`. -/
def BUILDING_PRICE_MULTIPLIER : ℚ := 1.15

/-- `constants.ACHIEVEMENTS_PER_MILK`. -/
def ACHIEVEMENTS_PER_MILK : ℕ := 25

/-- Python `sub in s` (substring containment), used by
`reset_for_ascension` for the check `'heavenly' in u.lower()`. -/
def strContains (s sub : String) : Bool :=
  (s.splitOn sub).length > 1

/-- Association-list lookup (first entry with the given key), the model
of a Python dict read. -/
def assocLookup {α β : Type} [BEq α] (l : List (α × β)) (k : α) : Option β :=
  match l with
  | [] => none
  | p :: rest => if p.1 == k then some p.2 else assocLookup rest k

/-- Dict read with default: `d.get(k, dflt)`. -/
def assocGetD {β : Type} (l : List (String × β)) (k : String) (dflt : β) : β :=
  (assocLookup l k).getD dflt

/-- Dict membership: `k in d`. -/
def containsKey {β : Type} (l : List (String × β)) (k : String) : Bool :=
  (assocLookup l k).isSome

/-- Dict write to an existing key: `d[k] = v` when `k in d` (the key keeps
its position, as in CPython). -/
def setAssoc {β : Type} (k : String) (v : β) : List (String × β) → List (String × β)
  | [] => []
  | p :: rest => if p.1 == k then (p.1, v) :: rest else p :: setAssoc k v rest

/-- Dict write `d[k] = v`: overwrite in place if present, else append. -/
def insertAssoc {β : Type} (k : String) (v : β) (l : List (String × β)) : List (String × β) :=
  if containsKey l k then setAssoc k v l else l ++ [(k, v)]

/-- Dict delete `del d[k]`. -/
def removeAssoc {β : Type} (k : String) (l : List (String × β)) : List (String × β) :=
  l.filter (fun p => p.1 != k)

/-- Set insert `s.add(x)` (no duplicates). -/
def setAdd (l : List String) (x : String) : List String :=
  if l.contains x then l else l ++ [x]

/-- A timed buff: the entry stored by `GameState.add_buff` (its `effect`
dict is modelled by the single `cps_mult` key the CPS calculator reads;
`effect_cps_mult = none` models an effect dict without that key). -/
structure Buff where
  duration : ℚ
  effect_cps_mult : Option ℚ
  start_time : ℚ
  deriving Repr, DecidableEq

/-- `game_state.GameState`: the mutable aggregate of the whole game state.
Wall-clock fields (`session_start`, `last_update`) and the unimplemented
minigame fields that no claim touches are omitted; the `stats` dict is
flattened into the three entries the engine writes. -/
structure GameState where
  cookies : ℚ
  cookies_earned : ℚ
  cookies_reset : ℚ
  cookies_per_second : ℚ
  cookies_per_click : ℚ
  cookie_clicks : ℕ
  handmade_cookies : ℚ
  buildings : List (String × ℕ)
  building_levels : List (String × ℕ)
  upgrades_owned : List String
  upgrades_unlocked : List String
  achievements : List String
  achievements_owned : ℕ
  prestige : ℕ
  heavenly_chips : ℚ
  heavenly_chips_spent : ℚ
  heavenly_power : ℚ
  ascension_mode : ℕ
  game_time : ℚ
  season : String
  milk_progress : ℚ
  milk_type : ℕ
  golden_cookies_clicked : ℕ
  buffs : List (String × Buff)
  pantheon_slots : List ℤ
  stats_buildings_owned : ℕ
  stats_upgrades_owned : ℕ
  stats_resets : ℕ
  deriving Repr, DecidableEq

namespace GameState

/-- `GameState.get_total_buildings`. -/
def get_total_buildings (gs : GameState) : ℕ :=
  (gs.buildings.map (fun p => p.2)).sum

/-- `GameState.get_building_count`. -/
def get_building_count (gs : GameState) (building_name : String) : ℕ :=
  assocGetD gs.buildings building_name 0

/-- `GameState.add_building` (the boolean the Python method returns is
discarded by every caller in the engine and is dropped here). -/
def add_building (gs : GameState) (building_name : String) (amount : ℕ) : GameState :=
  if containsKey gs.buildings building_name then
    let buildings' := setAssoc building_name
      (assocGetD gs.buildings building_name 0 + amount) gs.buildings
    { gs with buildings := buildings',
              stats_buildings_owned := (buildings'.map (fun p => p.2)).sum }
  else gs

/-- `GameState.has_upgrade`. -/
def has_upgrade (gs : GameState) (upgrade_name : String) : Bool :=
  gs.upgrades_owned.contains upgrade_name

/-- `GameState.add_upgrade`. -/
def add_upgrade (gs : GameState) (upgrade_name : String) : GameState :=
  let owned' := setAdd gs.upgrades_owned upgrade_name
  { gs with upgrades_owned := owned', stats_upgrades_owned := owned'.length }

/-- `GameState.get_milk_multiplier`. -/
def get_milk_multiplier (gs : GameState) : ℚ :=
  if gs.milk_progress ≤ 0 then 1
  else
    let base_mult : ℚ := 1 + (gs.milk_type : ℚ) * 0.04
    let kitten_mult : ℚ :=
      (if gs.has_upgrade "Kitten helpers" then 1 + gs.milk_progress * 0.05 else 1) *
      (if gs.has_upgrade "Kitten workers" then 1 + gs.milk_progress * 0.1 else 1) *
      (if gs.has_upgrade "Kitten engineers" then 1 + gs.milk_progress * 0.2 else 1)
    base_mult * kitten_mult

/-- `GameState.earn_cookies`. -/
def earn_cookies (gs : GameState) (amount : ℚ) : GameState :=
  { gs with cookies := gs.cookies + amount,
            cookies_earned := gs.cookies_earned + amount }

/-- `GameState.spend_cookies`: returns the success flag and the state. -/
def spend_cookies (gs : GameState) (amount : ℚ) : Bool × GameState :=
  if amount ≤ gs.cookies then (true, { gs with cookies := gs.cookies - amount })
  else (false, gs)

/-- `GameState.get_prestige_multiplier`. -/
def get_prestige_multiplier (gs : GameState) : ℚ :=
  if gs.ascension_mode = 1 then 1
  else 1 + (gs.prestige : ℚ) * 0.01 * gs.heavenly_power

/-- `GameState.add_buff` (dict write: re-adding a buff under an existing
name overwrites that entry in place). -/
def add_buff (gs : GameState) (buff_name : String) (duration : ℚ)
    (effect_cps_mult : Option ℚ) : GameState :=
  { gs with buffs :=
      insertAssoc buff_name (Buff.mk duration effect_cps_mult gs.game_time) gs.buffs }

/-- `GameState.remove_buff`. -/
def remove_buff (gs : GameState) (buff_name : String) : GameState :=
  { gs with buffs := removeAssoc buff_name gs.buffs }

/-- The buff-list transformation performed by `GameState.update_buffs`:
decrement every duration by `dt`, then remove every buff whose new
duration is `≤ 0`. -/
def updateBuffsList (l : List (String × Buff)) (dt : ℚ) : List (String × Buff) :=
  (l.map (fun p => (p.1, { p.2 with duration := p.2.duration - dt }))).filter
    (fun p => ¬ p.2.duration ≤ 0)

/-- `GameState.update_buffs`. -/
def update_buffs (gs : GameState) (dt : ℚ) : GameState :=
  { gs with buffs := updateBuffsList gs.buffs dt }

/-- `GameState.reset_for_ascension`. -/
def reset_for_ascension (gs : GameState) : GameState :=
  let heavenly_upgrades := gs.upgrades_owned.filter
    (fun u => strContains u.toLower "heavenly")
  { gs with
      cookies_reset := gs.cookies_reset + gs.cookies_earned,
      cookies := 0,
      cookies_earned := 0,
      cookies_per_second := 0,
      cookie_clicks := 0,
      handmade_cookies := 0,
      buildings := gs.buildings.map (fun p => (p.1, 0)),
      building_levels := gs.buildings.foldl
        (fun lv p => insertAssoc p.1 0 lv) gs.building_levels,
      upgrades_owned := heavenly_upgrades,
      upgrades_unlocked := [],
      buffs := [],
      game_time := 0,
      stats_resets := gs.stats_resets + 1,
      stats_buildings_owned := 0,
      stats_upgrades_owned := heavenly_upgrades.length }

end GameState

/-- `buildings.Building`: immutable per-type catalog data. -/
structure Building where
  name : String
  base_price : ℚ
  base_cps : ℚ
  icon_id : ℕ
  price_multiplier : ℚ
  grandma_synergy : Bool
  deriving Repr, DecidableEq

/-- The `BUILDINGS` catalog: the rows of `constants.BUILDINGS_BASE_DATA`
in order, each constructed by `initialize_buildings` with the default
price multiplier and `grandma_synergy` set for every building other than
`Cursor` and `Grandma`. -/
def BUILDINGS : List Building := [
  ⟨"Cursor", 15, 0.1, 0, BUILDING_PRICE_MULTIPLIER, false⟩,
  ⟨"Grandma", 100, 1.0, 1, BUILDING_PRICE_MULTIPLIER, false⟩,
  ⟨"Farm", 1100, 8.0, 2, BUILDING_PRICE_MULTIPLIER, true⟩,
  ⟨"Mine", 12000, 47.0, 3, BUILDING_PRICE_MULTIPLIER, true⟩,
  ⟨"Factory", 130000, 260.0, 4, BUILDING_PRICE_MULTIPLIER, true⟩,
  ⟨"Bank", 1400000, 1400.0, 5, BUILDING_PRICE_MULTIPLIER, true⟩,
  ⟨"Temple", 20000000, 7800.0, 6, BUILDING_PRICE_MULTIPLIER, true⟩,
  ⟨"Wizard tower", 330000000, 44000.0, 7, BUILDING_PRICE_MULTIPLIER, true⟩,
  ⟨"Shipment", 5100000000, 260000.0, 8, BUILDING_PRICE_MULTIPLIER, true⟩,
  ⟨"Alchemy lab", 75000000000, 1600000.0, 9, BUILDING_PRICE_MULTIPLIER, true⟩,
  ⟨"Portal", 1000000000000, 10000000.0, 10, BUILDING_PRICE_MULTIPLIER, true⟩,
  ⟨"Time machine", 14000000000000, 65000000.0, 11, BUILDING_PRICE_MULTIPLIER, true⟩,
  ⟨"Antimatter condenser", 170000000000000, 430000000.0, 12, BUILDING_PRICE_MULTIPLIER, true⟩,
  ⟨"Prism", 2100000000000000, 2900000000.0, 13, BUILDING_PRICE_MULTIPLIER, true⟩,
  ⟨"Chancemaker", 26000000000000000, 21000000000.0, 14, BUILDING_PRICE_MULTIPLIER, true⟩,
  ⟨"Fractal engine", 310000000000000000, 150000000000.0, 15, BUILDING_PRICE_MULTIPLIER, true⟩]

/-- Catalog lookup `BUILDINGS[name]` guarded by `name in BUILDINGS`. -/
def findBuilding (building_name : String) : Option Building :=
  BUILDINGS.find? (fun b => b.name == building_name)

namespace Building

/-- `Building.get_price`: `base_price * (price_multiplier ^ current_amount)`. -/
def get_price (b : Building) (current_amount : ℕ) : ℚ :=
  b.base_price * b.price_multiplier ^ current_amount

/-- `Building.get_bulk_price`: sum of the next `buy_amount` unit prices. -/
def get_bulk_price (b : Building) (current_amount buy_amount : ℕ) : ℚ :=
  (List.range buy_amount).foldl
    (fun total i => total + b.get_price (current_amount + i)) 0

/-- `Building.get_building_specific_upgrades`. -/
def get_building_specific_upgrades (b : Building) : List String :=
  if b.name = "Cursor" then
    ["Reinforced index finger", "Carpal tunnel prevention cream", "Ambidextrous"]
  else if b.name = "Grandma" then
    ["Forwards from grandma", "Steel-plated rolling pins", "Lubricated dentures"]
  else if b.name = "Farm" then ["Cheap hoes", "Fertilizer", "Cookie trees"]
  else if b.name = "Mine" then ["Sugar gas", "Megadrill", "Ultradrill"]
  else if b.name = "Factory" then ["Sturdier conveyor belts", "Child labor", "Sweatshop"]
  else if b.name = "Bank" then
    ["Taller tellers", "Scissor-resistant credit cards", "Acid-proof vaults"]
  else if b.name = "Temple" then ["Golden idols", "Sacrifices", "Delicious blessing"]
  else if b.name = "Wizard tower" then
    ["Pointier hats", "Beardlier beards", "Ancient grimoires"]
  else if b.name = "Shipment" then ["Vanilla nebulae", "Wormholes", "Frequent flyer"]
  else if b.name = "Alchemy lab" then ["Antimony", "Essence of dough", "True chocolate"]
  else if b.name = "Portal" then ["Ancient tablet", "Insane oatling workers", "Soul bond"]
  else if b.name = "Time machine" then
    ["Flux capacitors", "Time paradox resolver", "Quantum conundrum"]
  else if b.name = "Antimatter condenser" then
    ["Sugar bosons", "String theory", "Large macaron collider"]
  else if b.name = "Prism" then ["Gem polish", "Ninth color", "Chocolate light"]
  else if b.name = "Chancemaker" then
    ["Your lucky cookie", "All-natural clovers", "Leprechaun village"]
  else if b.name = "Fractal engine" then
    ["Metabakeries", "Mandelbrot cake", "Fractoids"]
  else []

/-- `Building.get_upgrade_multiplier`: the three grandma upgrades double
every building (the generic block), and each owned building-specific
upgrade doubles again. -/
def get_upgrade_multiplier (b : Building) (gs : GameState) : ℚ :=
  let generic : ℚ :=
    (if gs.has_upgrade "Forwards from grandma" then 2 else 1) *
    (if gs.has_upgrade "Steel-plated rolling pins" then 2 else 1) *
    (if gs.has_upgrade "Lubricated dentures" then 2 else 1)
  b.get_building_specific_upgrades.foldl
    (fun m u => if gs.has_upgrade u then m * 2 else m) generic

/-- `Building.get_grandma_synergy_multiplier`. -/
def get_grandma_synergy_multiplier (b : Building) (gs : GameState) : ℚ :=
  if ¬ b.grandma_synergy then 1
  else
    let grandma_count := gs.get_building_count "Grandma"
    if grandma_count ≤ 0 then 1 else 1 + (grandma_count : ℚ) * 0.01

/-- `Building.get_special_multiplier` (dragon, pantheon and garden hooks
are unimplemented in the source and return 1.0). -/
def get_special_multiplier (_b : Building) (_gs : GameState) : ℚ := 1

/-- `Building.get_total_multiplier`: level bonus, upgrade multiplier,
grandma synergy, then the milk and prestige multipliers (the source
multiplies these per building, and the CPS calculator multiplies them
again globally). -/
def get_total_multiplier (b : Building) (gs : GameState) : ℚ :=
  let building_level := assocGetD gs.building_levels b.name 0
  (if building_level > 0 then 1 + (building_level : ℚ) * 0.01 else 1) *
    b.get_upgrade_multiplier gs *
    (if b.grandma_synergy then b.get_grandma_synergy_multiplier gs else 1) *
    gs.get_milk_multiplier *
    gs.get_prestige_multiplier *
    b.get_special_multiplier gs

/-- `Building.get_cps_contribution`. -/
def get_cps_contribution (b : Building) (amount : ℕ) (gs : GameState) : ℚ :=
  if amount ≤ 0 then 0
  else b.base_cps * (amount : ℚ) * b.get_total_multiplier gs

/-- `Building.get_efficiency`: CPS increase per cookie spent, `0.0` when
the price is not positive. -/
def get_efficiency (b : Building) (current_amount : ℕ) (gs : GameState) : ℚ :=
  let price := b.get_price current_amount
  let cps_increase :=
    b.get_cps_contribution (current_amount + 1) gs -
      b.get_cps_contribution current_amount gs
  if price > 0 then cps_increase / price else 0

/-- `Building.can_afford`. -/
def can_afford (b : Building) (current_amount : ℕ) (cookies : ℚ) : Bool :=
  cookies ≥ b.get_price current_amount

end Building

/-- `BuildingManager.buy_building`: success flag plus updated state. -/
def buy_building (gs : GameState) (building_name : String) (amount : ℕ) :
    Bool × GameState :=
  match findBuilding building_name with
  | none => (false, gs)
  | some building =>
    let current_amount := gs.get_building_count building_name
    let total_price := building.get_bulk_price current_amount amount
    let r := gs.spend_cookies total_price
    if r.1 then (true, r.2.add_building building_name amount) else (false, r.2)

/-- `BuildingManager.calculate_total_cps`: sum of every building's CPS
contribution. -/
def buildingManagerTotalCps (gs : GameState) : ℚ :=
  BUILDINGS.foldl
    (fun total b => total + b.get_cps_contribution (gs.get_building_count b.name) gs) 0

/-- `upgrades.Upgrade`: the immutable catalog data of one upgrade. The
mutable `unlocked` / `bought` flags the Python constructor also puts on
the object live in `CatalogFlags` (they are shared module-level state,
not per-`GameState` data). -/
structure Upgrade where
  name : String
  price : ℚ
  effect_type : String
  effect_value : ℚ
  unlock_condition : Option (GameState → Bool)
  is_heavenly : Bool
  building_target : Option String

/-- The `UPGRADES` catalog: the rows of `upgrades.UPGRADES_DATA` in
order, as constructed by `initialize_upgrades`. -/
def UPGRADES : List Upgrade := [
  ⟨"Reinforced index finger", 100, "click_multiplier", 1.0,
    some (fun gs => gs.cookie_clicks ≥ 15), false, none⟩,
  ⟨"Carpal tunnel prevention cream", 500, "click_multiplier", 1.0,
    some (fun gs => gs.cookie_clicks ≥ 100), false, none⟩,
  ⟨"Ambidextrous", 10000, "click_multiplier", 1.0,
    some (fun gs => gs.cookie_clicks ≥ 1000), false, none⟩,
  ⟨"Forwards from grandma", 1000, "building_multiplier", 1.0,
    some (fun gs => gs.get_building_count "Grandma" ≥ 1), false, some "Grandma"⟩,
  ⟨"Steel-plated rolling pins", 5000, "building_multiplier", 1.0,
    some (fun gs => gs.get_building_count "Grandma" ≥ 5), false, some "Grandma"⟩,
  ⟨"Lubricated dentures", 50000, "building_multiplier", 1.0,
    some (fun gs => gs.get_building_count "Grandma" ≥ 25), false, some "Grandma"⟩,
  ⟨"Cheap hoes", 11000, "building_multiplier", 1.0,
    some (fun gs => gs.get_building_count "Farm" ≥ 1), false, some "Farm"⟩,
  ⟨"Fertilizer", 55000, "building_multiplier", 1.0,
    some (fun gs => gs.get_building_count "Farm" ≥ 5), false, some "Farm"⟩,
  ⟨"Cookie trees", 550000, "building_multiplier", 1.0,
    some (fun gs => gs.get_building_count "Farm" ≥ 25), false, some "Farm"⟩,
  ⟨"Kitten helpers", 9000000, "special_effect", 0.05,
    some (fun gs => gs.milk_progress ≥ 0.5), false, none⟩,
  ⟨"Kitten workers", 9000000000, "special_effect", 0.1,
    some (fun gs => gs.milk_progress ≥ 1.0), false, none⟩,
  ⟨"Kitten engineers", 9000000000000, "special_effect", 0.2,
    some (fun gs => gs.milk_progress ≥ 2.0), false, none⟩,
  ⟨"Heavenly chip secret", 1, "special_effect", 0.05, none, true, none⟩,
  ⟨"Heavenly cookie stand", 3, "special_effect", 0.20,
    some (fun gs => gs.has_upgrade "Heavenly chip secret"), true, none⟩,
  ⟨"Heavenly bakery", 10, "special_effect", 0.25,
    some (fun gs => gs.has_upgrade "Heavenly cookie stand"), true, none⟩,
  ⟨"Lucky day", 777777777, "special_effect", 1.0,
    some (fun gs => gs.golden_cookies_clicked ≥ 7), false, none⟩,
  ⟨"Serendipity", 77777777777, "special_effect", 1.0,
    some (fun gs => gs.golden_cookies_clicked ≥ 27), false, none⟩]

/-- Catalog lookup `UPGRADES[name]` guarded by `name in UPGRADES`. -/
def findUpgrade (upgrade_name : String) : Option Upgrade :=
  UPGRADES.find? (fun u => u.name == upgrade_name)

/-- The shared, mutable `unlocked` / `bought` flags of the module-level
upgrade catalog objects: `name ↦ (unlocked, bought)`. All `GameState`s of
the process observe the same `CatalogFlags`. -/
def CatalogFlags : Type := List (String × (Bool × Bool))

/-- The flags right after `initialize_upgrades`: nothing unlocked, nothing
bought. -/
def initialCatalogFlags : CatalogFlags :=
  UPGRADES.map (fun u => (u.name, (false, false)))

/-- `upgrade.unlocked`. -/
def flagUnlocked (fl : CatalogFlags) (upgrade_name : String) : Bool :=
  ((assocLookup fl upgrade_name).getD (false, false)).1

/-- `upgrade.bought`. -/
def flagBought (fl : CatalogFlags) (upgrade_name : String) : Bool :=
  ((assocLookup fl upgrade_name).getD (false, false)).2

/-- `upgrade.unlocked = True`. -/
def setUnlocked (fl : CatalogFlags) (upgrade_name : String) : CatalogFlags :=
  insertAssoc upgrade_name (true, flagBought fl upgrade_name) fl

/-- `upgrade.bought = True`. -/
def setBought (fl : CatalogFlags) (upgrade_name : String) : CatalogFlags :=
  insertAssoc upgrade_name (flagUnlocked fl upgrade_name, true) fl

namespace Upgrade

/-- `Upgrade.check_unlock_condition`. -/
def check_unlock_condition (u : Upgrade) (gs : GameState) : Bool :=
  match u.unlock_condition with
  | none => true
  | some cond => cond gs

/-- `Upgrade.can_afford`: heavenly upgrades are priced in heavenly chips,
the rest in cookies. -/
def can_afford (u : Upgrade) (gs : GameState) : Bool :=
  if u.is_heavenly then gs.heavenly_chips ≥ u.price else gs.cookies ≥ u.price

/-- `Upgrade.buy`: checks the shared catalog flags, spends the relevant
currency, marks the catalog object bought, and records the upgrade in the
game state. Returns `(flags, state, success)`. -/
def buy (u : Upgrade) (fl : CatalogFlags) (gs : GameState) :
    CatalogFlags × GameState × Bool :=
  if ¬ flagUnlocked fl u.name ∨ flagBought fl u.name then (fl, gs, false)
  else if ¬ u.can_afford gs then (fl, gs, false)
  else
    let gs1 :=
      if u.is_heavenly then
        { gs with heavenly_chips := gs.heavenly_chips - u.price,
                  heavenly_chips_spent := gs.heavenly_chips_spent + u.price }
      else (gs.spend_cookies u.price).2
    (setBought fl u.name, gs1.add_upgrade u.name, true)

end Upgrade

/-- `UpgradeManager.update_unlocks`: unlock every not-yet-unlocked,
not-bought upgrade whose condition holds, mutating both the shared flags
and the game state's `upgrades_unlocked` set. -/
def update_unlocks (fl : CatalogFlags) (gs : GameState) : CatalogFlags × GameState :=
  UPGRADES.foldl
    (fun acc u =>
      if ¬ flagUnlocked acc.1 u.name ∧ ¬ flagBought acc.1 u.name ∧
          u.check_unlock_condition acc.2 then
        (setUnlocked acc.1 u.name,
         { acc.2 with upgrades_unlocked := setAdd acc.2.upgrades_unlocked u.name })
      else acc)
    (fl, gs)

/-- `UpgradeManager.buy_upgrade`. -/
def buy_upgrade (fl : CatalogFlags) (gs : GameState) (upgrade_name : String) :
    CatalogFlags × GameState × Bool :=
  match findUpgrade upgrade_name with
  | none => (fl, gs, false)
  | some u => u.buy fl gs

/-- `UpgradeManager.get_available_upgrades`: reads only the shared catalog
flags, not the game state. -/
def get_available_upgrades (fl : CatalogFlags) : List String :=
  UPGRADES.filterMap
    (fun u => if flagUnlocked fl u.name ∧ ¬ flagBought fl u.name then some u.name
              else none)

/-- `UpgradeManager.get_affordable_upgrades`. -/
def get_affordable_upgrades (fl : CatalogFlags) (gs : GameState) : List String :=
  UPGRADES.filterMap
    (fun u => if flagUnlocked fl u.name ∧ ¬ flagBought fl u.name ∧ u.can_afford gs
              then some u.name else none)

/-- `CPSCalculator._calculate_special_cps`: the flat CPS of the hidden
`"egg"` upgrade. -/
def specialCps (gs : GameState) : ℚ :=
  if gs.has_upgrade "\"egg\"" then 9 else 0

/-- `CPSCalculator._calculate_upgrade_multiplier`: the flat multiplicative
stack of global-effect upgrades. `GameState` defines no `santa_level`
attribute, so the `getattr(game_state, 'santa_level', 0)` in the source
always yields 0. -/
def upgradeGlobalMultiplier (gs : GameState) : ℚ :=
  (if gs.has_upgrade "Specialized chocolate chips" then (1.01 : ℚ) else 1) *
  (if gs.has_upgrade "Designer cocoa beans" then (1.02 : ℚ) else 1) *
  (if gs.has_upgrade "Underworld ovens" then (1.03 : ℚ) else 1) *
  (if gs.has_upgrade "Exotic nuts" then (1.04 : ℚ) else 1) *
  (if gs.has_upgrade "Arcane sugar" then (1.05 : ℚ) else 1) *
  (if gs.has_upgrade "Increased merriness" then (1.15 : ℚ) else 1) *
  (if gs.has_upgrade "Improved jolliness" then (1.15 : ℚ) else 1) *
  (if gs.has_upgrade "A lump of coal" then (1.01 : ℚ) else 1) *
  (if gs.has_upgrade "An itchy sweater" then (1.01 : ℚ) else 1) *
  (if gs.has_upgrade "Santa\x27s dominion" then (1.2 : ℚ) else 1) *
  (if gs.has_upgrade "Fortune #100" then (1.01 : ℚ) else 1) *
  (if gs.has_upgrade "Fortune #101" then (1.07 : ℚ) else 1) *
  (if gs.has_upgrade "Santa\x27s legacy" then 1 + ((0 : ℚ) + 1) * 0.03 else 1)

/-- `CPSCalculator._calculate_season_multiplier`: of the entries of
`constants.SEASONS`, only `christmas` (1.02) and `valentines` (1.01)
carry a `cps_mult` effect. -/
def seasonMultiplier (gs : GameState) : ℚ :=
  if gs.season = "christmas" then 1.02
  else if gs.season = "valentines" then 1.01
  else 1

/-- `CPSCalculator._calculate_dragon_multiplier` (unimplemented hook). -/
def dragonMultiplier (_gs : GameState) : ℚ := 1

/-- The `for i, god_id in enumerate(game_state.pantheon_slots)` loop of
`CPSCalculator._calculate_pantheon_multiplier`, with the running slot
index made explicit. -/
def pantheonFold (i : ℕ) (slots : List ℤ) (m : ℚ) : ℚ :=
  match slots with
  | [] => m
  | god_id :: rest =>
    pantheonFold (i + 1) rest
      (if god_id = 0 then
        if i = 0 then m * 1.15
        else if i = 1 then m * 1.10
        else if i = 2 then m * 1.05
        else m
      else m)

/-- `CPSCalculator._calculate_pantheon_multiplier`: Holobore (god id 0)
boosts CPS by slot position. -/
def pantheonMultiplier (gs : GameState) : ℚ :=
  pantheonFold 0 gs.pantheon_slots 1

/-- `CPSCalculator._calculate_global_multiplier`: prestige, milk, global
upgrades, season, dragon, pantheon and garden multipliers (the garden
hook is unimplemented and contributes 1.0). -/
def globalMultiplier (gs : GameState) : ℚ :=
  gs.get_prestige_multiplier *
  gs.get_milk_multiplier *
  upgradeGlobalMultiplier gs *
  seasonMultiplier gs *
  dragonMultiplier gs *
  pantheonMultiplier gs

/-- `CPSCalculator._calculate_buff_multiplier`: the named frenzy, elder
frenzy and clot effects, then every buff's own `cps_mult` effect. -/
def buffMultiplier (gs : GameState) : ℚ :=
  (if containsKey gs.buffs "frenzy" then (7 : ℚ) else 1) *
  (if containsKey gs.buffs "elder_frenzy" then (666 : ℚ) else 1) *
  (if containsKey gs.buffs "clot" then (0.5 : ℚ) else 1) *
  gs.buffs.foldl
    (fun m p => match p.2.effect_cps_mult with
                | some r => m * r
                | none => m) 1

/-- The uncached body of `CPSCalculator.calculate_total_cps`: building
CPS plus special CPS, scaled by the global multiplier and then by the
buff multiplier. -/
def computeTotalCps (gs : GameState) : ℚ :=
  ((buildingManagerTotalCps gs + specialCps gs) * globalMultiplier gs) *
    buffMultiplier gs

/-- `CPSCalculator._get_cache_key`: the fingerprint of the state used by
the cache — owned building counts, owned upgrades, prestige, milk
progress and the buff *names* (`game_state.buffs.keys()`); buff effects
and durations are not part of the key. -/
structure CacheKey where
  buildings : List (String × ℕ)
  upgrades_owned : List String
  prestige : ℕ
  milk_progress : ℚ
  buff_names : List String
  deriving Repr, DecidableEq

/-- `CPSCalculator._get_cache_key` applied to a state. -/
def cacheKey (gs : GameState) : CacheKey :=
  ⟨gs.buildings, gs.upgrades_owned, gs.prestige, gs.milk_progress,
   gs.buffs.map (fun p => p.1)⟩

/-- The mutable part of a `CPSCalculator`: its memo dict and validity
flag. -/
structure CalcState where
  cache : List (CacheKey × ℚ)
  cache_valid : Bool
  deriving Repr, DecidableEq

/-- A freshly constructed `CPSCalculator`. -/
def initialCalcState : CalcState := ⟨[], false⟩

/-- Dict write for the cache (`self.cache[cache_key] = total_cps`). -/
def cacheInsert (k : CacheKey) (v : ℚ) (c : List (CacheKey × ℚ)) :
    List (CacheKey × ℚ) :=
  if (assocLookup c k).isSome then
    c.map (fun p => if p.1 == k then (p.1, v) else p)
  else c ++ [(k, v)]

/-- `CPSCalculator.calculate_total_cps`: return the memoised value when
the cache is valid and holds the state's key, otherwise compute freshly
and record the result. -/
def calculate_total_cps (c : CalcState) (gs : GameState) : ℚ × CalcState :=
  let k := cacheKey gs
  if c.cache_valid then
    match assocLookup c.cache k with
    | some v => (v, c)
    | none =>
      let v := computeTotalCps gs
      (v, ⟨cacheInsert k v c.cache, true⟩)
  else
    let v := computeTotalCps gs
    (v, ⟨cacheInsert k v c.cache, true⟩)

/-- `CPSCalculator.invalidate_cache`. -/
def invalidate_cache (_c : CalcState) : CalcState := ⟨[], false⟩

/-- `CPSCalculator._calculate_click_multiplier`. -/
def clickMultiplier (gs : GameState) : ℚ :=
  ["Reinforced index finger", "Carpal tunnel prevention cream", "Ambidextrous",
   "Thousand fingers", "Million fingers", "Billion fingers",
   "Trillion fingers"].foldl
    (fun m u => if gs.has_upgrade u then m * 2 else m) 1

/-- `CPSCalculator.calculate_click_power` (pure; does not touch the
cache). -/
def calculate_click_power (gs : GameState) : ℚ :=
  let cursor_count := gs.get_building_count "Cursor"
  let base : ℚ :=
    if cursor_count > 0 then
      match findBuilding "Cursor" with
      | some cursor => 1 + cursor.get_cps_contribution cursor_count gs
      | none => 1
    else 1
  let powered := base * clickMultiplier gs
  powered * (if containsKey gs.buffs "click_frenzy" then (777 : ℚ) else 1) *
    (if containsKey gs.buffs "dragonflight" then (1111 : ℚ) else 1)

/-- `purchase_optimizer.PurchaseOption`: one candidate purchase.
`payback_time = none` models `float('inf')`. -/
structure PurchaseOption where
  type : String
  name : String
  price : ℚ
  efficiency : ℚ
  cps_increase : ℚ
  payback_time : Option ℚ
  deriving Repr, DecidableEq

/-- `PurchaseOption.__init__`: `payback_time` is `price / cps_increase`
when the CPS increase is positive and infinity otherwise. -/
def mkPurchaseOption (type name : String) (price efficiency : ℚ)
    (cps_increase : ℚ) : PurchaseOption :=
  ⟨type, name, price, efficiency, cps_increase,
   if cps_increase > 0 then some (price / cps_increase) else none⟩

/-- `PurchaseOptimizer._calculate_building_efficiency`: marginal CPS gain
over price, `0.0` when the price is not positive. -/
def calcBuildingEfficiency (b : Building) (current_amount : ℕ)
    (gs : GameState) : ℚ :=
  let cps_increase :=
    b.get_cps_contribution (current_amount + 1) gs -
      b.get_cps_contribution current_amount gs
  let price := b.get_price current_amount
  if price > 0 then cps_increase / price else 0

/-- `PurchaseOptimizer._calculate_upgrade_efficiency`: full counterfactual
recompute through the optimizer's own (cached) CPS calculator — current
total CPS, then the CPS of a copy of the state with the upgrade added,
recomputed after an explicit cache invalidation. -/
def calcUpgradeEfficiency (c : CalcState) (u : Upgrade) (gs : GameState) :
    ℚ × CalcState :=
  let r1 := calculate_total_cps c gs
  let temp_state := gs.add_upgrade u.name
  let c2 := invalidate_cache r1.2
  let r2 := calculate_total_cps c2 temp_state
  let cps_increase := r2.1 - r1.1
  (if u.price > 0 then cps_increase / u.price else 0, r2.2)

/-- `PurchaseOptimizer._get_building_options`: one option per building
whose current price fits the budget, in catalog order. -/
def getBuildingOptions (gs : GameState) (budget : ℚ) : List PurchaseOption :=
  BUILDINGS.filterMap
    (fun b =>
      let current_amount := gs.get_building_count b.name
      let price := b.get_price current_amount
      if price ≤ budget then
        let efficiency := calcBuildingEfficiency b current_amount gs
        let cps_increase :=
          b.get_cps_contribution (current_amount + 1) gs -
            b.get_cps_contribution current_amount gs
        some (mkPurchaseOption "building" b.name price efficiency cps_increase)
      else none)

/-- `PurchaseOptimizer._get_upgrade_options`: one option per affordable
(unlocked, unbought, payable) upgrade within the budget, in catalog
order; `cps_increase` is left at its default `0.0`. The optimizer's
calculator state is threaded through the efficiency recomputations. -/
def getUpgradeOptions (c : CalcState) (fl : CatalogFlags) (gs : GameState)
    (budget : ℚ) : List PurchaseOption × CalcState :=
  (get_affordable_upgrades fl gs).foldl
    (fun acc uname =>
      match findUpgrade uname with
      | none => acc
      | some u =>
        if u.price ≤ budget then
          let r := calcUpgradeEfficiency acc.2 u gs
          (acc.1 ++ [mkPurchaseOption "upgrade" u.name u.price r.1 0], r.2)
        else acc)
    ([], c)

/-- `PurchaseOptimizer.get_all_purchase_options`: building options then
upgrade options. -/
def getAllPurchaseOptions (c : CalcState) (fl : CatalogFlags) (gs : GameState)
    (budget : ℚ) : List PurchaseOption × CalcState :=
  (getBuildingOptions gs budget ++ (getUpgradeOptions c fl gs budget).1,
   (getUpgradeOptions c fl gs budget).2)

/-- One insertion step of a stable descending sort by efficiency: a new
element is placed before the first strictly less efficient element, i.e.
after any equally efficient earlier element. -/
def insertDesc (x : PurchaseOption) : List PurchaseOption → List PurchaseOption
  | [] => [x]
  | y :: ys => if x.efficiency > y.efficiency then x :: y :: ys
               else y :: insertDesc x ys

/-- `options.sort(key=lambda x: x.efficiency, reverse=True)`: CPython's
stable sort, descending by efficiency — equally efficient options keep
their enumeration order. -/
def sortByEfficiencyDesc (l : List PurchaseOption) : List PurchaseOption :=
  l.foldl (fun acc x => insertDesc x acc) []

/-- `PurchaseOptimizer.get_best_purchase`: the head of the options list
sorted by descending efficiency (`budget = none` models the default
`budget=None`, which uses the state's cookies). -/
def get_best_purchase (c : CalcState) (fl : CatalogFlags) (gs : GameState)
    (budget : Option ℚ) : Option PurchaseOption × CalcState :=
  let b := budget.getD gs.cookies
  ((sortByEfficiencyDesc (getAllPurchaseOptions c fl gs b).1).head?,
   (getAllPurchaseOptions c fl gs b).2)

/-- The earliest-enumerated option of maximal efficiency: the current
best is replaced only by a strictly more efficient later option. Used to
state what `get_best_purchase`'s stable sort actually returns. -/
def firstMaxByEfficiency (l : List PurchaseOption) : Option PurchaseOption :=
  l.foldl
    (fun acc x =>
      match acc with
      | none => some x
      | some y => if x.efficiency > y.efficiency then some x else some y)
    none

/-- `constants.cps_calculatorulate_prestige` over the reals:
`(cookies_reset / PRESTIGE_BASE) ** (1 / HC_FACTOR)`. -/
noncomputable def calculate_prestige (cookies_reset : ℝ) : ℝ :=
  (cookies_reset / ((PRESTIGE_BASE : ℚ) : ℝ)) ^ ((1 : ℝ) / (HC_FACTOR : ℕ))

/-- `constants.cps_calculatorulate_cookies_for_prestige`:
`(prestige_level ** HC_FACTOR) * PRESTIGE_BASE`. -/
def calculate_cookies_for_prestige (prestige_level : ℝ) : ℝ :=
  prestige_level ^ (HC_FACTOR : ℕ) * ((PRESTIGE_BASE : ℚ) : ℝ)

/-- The integer cube root `⌊m ^ (1/3)⌋` of a natural number. -/
def natCbrt (m : ℕ) : ℕ :=
  Nat.findGreatest (fun n => n ^ 3 ≤ m) m

/-- `int(calculate_prestige(total_cookies))` computed exactly over `ℚ`:
for `q ≥ 0`, `⌊(q / PRESTIGE_BASE) ^ (1/3)⌋ = natCbrt ⌊q / PRESTIGE_BASE⌋`
because `n ≤ x ^ (1/3) ↔ n ^ 3 ≤ x ↔ n ^ 3 ≤ ⌊x⌋` for integer `n`
(negative totals, on which the Python expression is not a real number,
floor to 0). -/
def calculatePrestigeFloor (total_cookies : ℚ) : ℕ :=
  natCbrt (Int.toNat (Int.floor (total_cookies / PRESTIGE_BASE)))

/-- The effect of `GameSimulator.ascend` on the game state: bank the
prestige gain when positive, then always reset for ascension. -/
def ascendState (gs : GameState) : GameState :=
  let total_cookies := gs.cookies_reset + gs.cookies_earned
  let new_prestige := calculatePrestigeFloor total_cookies
  let gs1 :=
    if gs.prestige < new_prestige then
      { gs with
          heavenly_chips := gs.heavenly_chips + ((new_prestige - gs.prestige : ℕ) : ℚ),
          prestige := new_prestige }
    else gs
  gs1.reset_for_ascension

/-- `GameSimulator`: the game state, the shared catalog flags, the
simulator's own CPS calculator, the optimizer's separate CPS calculator,
the three automation switches and the simulation statistics. -/
structure SimState where
  game_state : GameState
  catalog : CatalogFlags
  cps_calculator : CalcState
  opt_calculator : CalcState
  auto_buy_enabled : Bool
  auto_click_enabled : Bool
  auto_ascend_enabled : Bool
  stats_total_time : ℚ
  stats_total_steps : ℕ
  stats_cookies_produced : ℚ
  stats_buildings_bought : ℕ
  stats_upgrades_bought : ℕ
  stats_ascensions : ℕ

/-- A freshly constructed `GameSimulator` over a given state and catalog:
fresh calculators, auto-buy on, auto-click and auto-ascend off, zeroed
statistics. -/
def mkSimulator (gs : GameState) (fl : CatalogFlags) : SimState :=
  ⟨gs, fl, initialCalcState, initialCalcState, true, false, false, 0, 0, 0, 0, 0, 0⟩

/-- `GameSimulator._auto_click`: ten clicks per second at the current
click power; `int(clicks_per_second * dt)` truncates. -/
def autoClick (s : SimState) (dt : ℚ) : SimState :=
  let click_power := calculate_click_power s.game_state
  let cookies_from_clicks := click_power * 10 * dt
  let gs1 := s.game_state.earn_cookies cookies_from_clicks
  { s with game_state :=
      { gs1 with
          handmade_cookies := gs1.handmade_cookies + cookies_from_clicks,
          cookie_clicks := gs1.cookie_clicks + Int.toNat (Int.floor (10 * dt)) } }

/-- One iteration of `GameSimulator._auto_purchase`'s while loop, plus
the recursion on the remaining purchase budget of the step. -/
def autoPurchaseLoop : ℕ → SimState → SimState
  | 0, s => s
  | fuel + 1, s =>
    let r := get_best_purchase s.opt_calculator s.catalog s.game_state none
    match r.1 with
    | none => { s with opt_calculator := r.2 }
    | some best =>
      if best.type = "building" then
        let rb := buy_building s.game_state best.name 1
        if rb.1 then
          autoPurchaseLoop fuel
            { s with game_state := rb.2, opt_calculator := r.2,
                     cps_calculator := invalidate_cache s.cps_calculator,
                     stats_buildings_bought := s.stats_buildings_bought + 1 }
        else { s with game_state := rb.2, opt_calculator := r.2 }
      else if best.type = "upgrade" then
        let ru := buy_upgrade s.catalog s.game_state best.name
        if ru.2.2 then
          autoPurchaseLoop fuel
            { s with game_state := ru.2.1, catalog := ru.1, opt_calculator := r.2,
                     cps_calculator := invalidate_cache s.cps_calculator,
                     stats_upgrades_bought := s.stats_upgrades_bought + 1 }
        else { s with game_state := ru.2.1, catalog := ru.1, opt_calculator := r.2 }
      else { s with opt_calculator := r.2 }

/-- `GameSimulator.ascend`: bank the prestige gain, reset the state, and
invalidate the simulator's CPS cache. -/
def simAscend (s : SimState) : SimState :=
  { s with game_state := ascendState s.game_state,
           cps_calculator := invalidate_cache s.cps_calculator,
           stats_ascensions := s.stats_ascensions + 1 }

/-- `GameSimulator._auto_ascend`: ascend as soon as at least 10 prestige
levels would be gained. -/
def autoAscend (s : SimState) : SimState :=
  let total_cookies := s.game_state.cookies_reset + s.game_state.cookies_earned
  let potential_prestige := calculatePrestigeFloor total_cookies
  if 10 ≤ (potential_prestige : ℤ) - (s.game_state.prestige : ℤ) then simAscend s
  else s

/-- `GameSimulator.simulate_step`: recompute CPS (through the cache),
accrue production, update buffs, re-evaluate unlocks, run the enabled
automation, then advance time and the statistics. -/
def simulateStep (s : SimState) (dt : ℚ) : SimState :=
  let rc := calculate_total_cps s.cps_calculator s.game_state
  let cps := rc.1
  let gs1 := { s.game_state with cookies_per_second := cps }
  let cookies_produced := cps * dt
  let gs2 := gs1.earn_cookies cookies_produced
  let gs3 := gs2.update_buffs dt
  let ru := update_unlocks s.catalog gs3
  let s1 := { s with game_state := ru.2, catalog := ru.1, cps_calculator := rc.2,
                     stats_cookies_produced := s.stats_cookies_produced + cookies_produced }
  let s2 := if s1.auto_click_enabled then autoClick s1 dt else s1
  let s3 := if s2.auto_buy_enabled then autoPurchaseLoop 10 s2 else s2
  let s4 := if s3.auto_ascend_enabled then autoAscend s3 else s3
  { s4 with game_state := { s4.game_state with game_time := s4.game_state.game_time + dt },
            stats_total_time := s4.stats_total_time + dt,
            stats_total_steps := s4.stats_total_steps + 1 }

/-- `GameState.__init__`: the freshly constructed game state. -/
def initialGameState : GameState :=
  { cookies := 0, cookies_earned := 0, cookies_reset := 0,
    cookies_per_second := 0, cookies_per_click := 1, cookie_clicks := 0,
    handmade_cookies := 0,
    buildings := BUILDINGS.map (fun b => (b.name, 0)),
    building_levels := BUILDINGS.map (fun b => (b.name, 0)),
    upgrades_owned := [], upgrades_unlocked := [],
    achievements := [], achievements_owned := 0,
    prestige := 0, heavenly_chips := 0, heavenly_chips_spent := 0,
    heavenly_power := 1, ascension_mode := 0, game_time := 0, season := "",
    milk_progress := 0, milk_type := 0, golden_cookies_clicked := 0,
    buffs := [], pantheon_slots := [-1, -1, -1],
    stats_buildings_owned := 0, stats_upgrades_owned := 0, stats_resets := 0 }

/-- Owned-count table with the given Cursor, Grandma and Farm counts and
every other building at 0 (keys in catalog order, as in the
constructor). -/
def countsOf (cursor grandma farm : ℕ) : List (String × ℕ) :=
  [("Cursor", cursor), ("Grandma", grandma), ("Farm", farm), ("Mine", 0),
   ("Factory", 0), ("Bank", 0), ("Temple", 0), ("Wizard tower", 0),
   ("Shipment", 0), ("Alchemy lab", 0), ("Portal", 0), ("Time machine", 0),
   ("Antimatter condenser", 0), ("Prism", 0), ("Chancemaker", 0),
   ("Fractal engine", 0)]

/-- A reachable state exhibiting the double application of the prestige
multiplier: prestige level 1 and a single Grandma, nothing else. -/
def stateC1 : GameState :=
  { initialGameState with prestige := 1, buildings := countsOf 0 1 0 }

/-- The buff multiplier that makes the Cursor purchase and the `Forwards
from grandma` purchase of `stateC2` exactly equally efficient. -/
def tieRate : ℚ := (1000 * 20 ^ 31) / (9981 * 23 ^ 31)

/-- A state for the optimizer tie-break: 31 Cursors (price
`15 × 1.15³¹ ≈ 1142.4`), 18 Grandmas (price above the 1150-cookie
budget), 1 Farm (price above budget), 1150 cookies, and one custom buff
whose `cps_mult` is tuned so that the Cursor purchase and the cheaper
`Forwards from grandma` upgrade (price 1000) have exactly equal
efficiency. -/
def stateC2 : GameState :=
  { initialGameState with
      cookies := 1150,
      buildings := countsOf 31 18 1,
      buffs := [("tailwind", ⟨100, some tieRate, 0⟩)],
      upgrades_unlocked := ["Forwards from grandma", "Steel-plated rolling pins",
                            "Cheap hoes", "Heavenly chip secret"] }

/-- Catalog flags consistent with `stateC2` after `update_unlocks`: the
grandma upgrades reachable at 18 Grandmas, the farm upgrade reachable at
1 Farm, and the condition-free heavenly upgrade are unlocked; nothing is
bought. -/
def flagsC2 : CatalogFlags :=
  UPGRADES.map (fun u =>
    (u.name,
     (["Forwards from grandma", "Steel-plated rolling pins",
       "Cheap hoes", "Heavenly chip secret"].contains u.name, false)))

/-- The two equally efficient options of `stateC2`: the Cursor purchase
(price `15 × 1.15³¹`) as enumerated by `_get_building_options`. -/
def cursorOptionC2 : PurchaseOption :=
  mkPurchaseOption "building" "Cursor" (15 * (23 / 20 : ℚ) ^ 31)
    ((20 : ℚ) ^ 31 / (150 * 23 ^ 31)) (1 / 10)

/-- The cheaper of the two equally efficient options of `stateC2`: the
`Forwards from grandma` upgrade as enumerated by
`_get_upgrade_options`. -/
def forwardsOptionC2 : PurchaseOption :=
  mkPurchaseOption "upgrade" "Forwards from grandma" 1000
    ((20 : ℚ) ^ 31 / (150 * 23 ^ 31)) 0

/-- A state whose catalog has `Reinforced index finger` unlocked and
affordable: used to show that buying an upgrade through one state
mutates the shared catalog that every other state observes. -/
def stateC3 : GameState :=
  { initialGameState with cookies := 200, cookie_clicks := 20 }

/-- Catalog flags consistent with `stateC3` after `update_unlocks`:
`Reinforced index finger` (15 clicks reached) and the condition-free
`Heavenly chip secret` are unlocked, nothing is bought. -/
def flagsC3 : CatalogFlags :=
  UPGRADES.map (fun u =>
    (u.name,
     (["Reinforced index finger", "Heavenly chip secret"].contains u.name, false)))

/-- A state with one Cursor and one custom buff of magnitude 2: base for
the stale-cache-read counterexample. -/
def stateC4 : GameState :=
  { initialGameState with
      buildings := countsOf 1 0 0,
      buffs := [("boost", ⟨50, some 2, 0⟩)] }

/-- `stateC4` after `add_buff('boost', 50, {'cps_mult': 3})`: the same
buff name is re-added with a different magnitude, so the cache key is
unchanged. -/
def stateC4' : GameState :=
  stateC4.add_buff "boost" 50 (some 3)

/-- A fresh state with 100 cookies, used to witness the purchase
contract. -/
def stateC5 : GameState := { initialGameState with cookies := 100 }

/-- A `GameSimulator` over the given state and catalog with every
automation flag turned off (the configuration of the buff-expiry
scenario): fresh calculators, zeroed statistics. -/
def manualSimulator (gs : GameState) (fl : CatalogFlags) : SimState :=
  ⟨gs, fl, initialCalcState, initialCalcState, false, false, false, 0, 0, 0, 0, 0, 0⟩

/-- The cache key of a state whose buff dict holds exactly one buff of
the given name. -/
def kWithName (gs0 : GameState) (nm : String) : CacheKey :=
  ⟨gs0.buildings, gs0.upgrades_owned, gs0.prestige, gs0.milk_progress, [nm]⟩

/-- The cache key of a state with no active buffs. -/
def kNoBuffs (gs0 : GameState) : CacheKey :=
  ⟨gs0.buildings, gs0.upgrades_owned, gs0.prestige, gs0.milk_progress, []⟩

/-- The buff dict after `j` unit steps of a run that started with one
buff of the given name: present with its duration reduced by `j` while
`j` is still below the duration, gone afterwards. -/
def unitBuffs (nm : String) (bf : Buff) (j : ℕ) : List (String × Buff) :=
  if (j : ℚ) < bf.duration
  then [(nm, Buff.mk (bf.duration - j) bf.effect_cps_mult bf.start_time)]
  else []

/-- Lifetime cookies earned after `j` unit steps: each step accrues the
buffed rate while the buff is present at the start of the step and the
unbuffed rate afterwards. -/
def unitEarned (gs0 : GameState) (bf : Buff) (j : ℕ) : ℚ :=
  gs0.cookies_earned +
    ∑ i ∈ Finset.range j,
      (if (i : ℚ) < bf.duration then computeTotalCps gs0
       else computeTotalCps { gs0 with buffs := [] })

/-- The CPS calculator after `j` unit steps: a fresh calculator before
the first step, then a valid cache memoising the buffed rate under the
with-buff key, joined by the unbuffed rate under the no-buff key once
the buff has expired. -/
def unitCalc (gs0 : GameState) (nm : String) (bf : Buff) (j : ℕ) : CalcState :=
  if j = 0 then initialCalcState
  else if ((j - 1 : ℕ) : ℚ) < bf.duration
  then ⟨[(kWithName gs0 nm, computeTotalCps gs0)], true⟩
  else ⟨[(kWithName gs0 nm, computeTotalCps gs0),
         (kNoBuffs gs0, computeTotalCps { gs0 with buffs := [] })], true⟩

/-- The spec's buff scenario: a fresh game state carrying one buff
`boost` with CPS multiplier 7 and duration 10. -/
def buffWitnessState : GameState :=
  { initialGameState with buffs := [("boost", Buff.mk 10 (some 7) 0)] }

/-- A simulator over `buffWitnessState` with all automation off. -/
def buffWitnessSim : SimState :=
  manualSimulator buffWitnessState initialCatalogFlags

/-! Theorems. First, ground rational comparison facts used to evaluate
the engine on the concrete states above. -/

lemma qle_cursor31 : ((15:ℚ) * BUILDING_PRICE_MULTIPLIER ^ 31 ≤ 1150) = True := by
  norm_num [BUILDING_PRICE_MULTIPLIER]

lemma qle_grandma18 : ((100:ℚ) * BUILDING_PRICE_MULTIPLIER ^ 18 ≤ 1150) = False := by
  norm_num [BUILDING_PRICE_MULTIPLIER]

lemma qle_farm1 : ((1100:ℚ) * BUILDING_PRICE_MULTIPLIER ^ 1 ≤ 1150) = False := by
  norm_num [BUILDING_PRICE_MULTIPLIER]

lemma qle_farm1' : ((1100:ℚ) * BUILDING_PRICE_MULTIPLIER ≤ 1150) = False := by
  norm_num [BUILDING_PRICE_MULTIPLIER]

lemma qle_b4 : ((12000:ℚ) ≤ 1150) = False := by norm_num

lemma qle_b5 : ((130000:ℚ) ≤ 1150) = False := by norm_num

lemma qle_b6 : ((1400000:ℚ) ≤ 1150) = False := by norm_num

lemma qle_b7 : ((20000000:ℚ) ≤ 1150) = False := by norm_num

lemma qle_b8 : ((330000000:ℚ) ≤ 1150) = False := by norm_num

lemma qle_b9 : ((5100000000:ℚ) ≤ 1150) = False := by norm_num

lemma qle_b10 : ((75000000000:ℚ) ≤ 1150) = False := by norm_num

lemma qle_b11 : ((1000000000000:ℚ) ≤ 1150) = False := by norm_num

lemma qle_b12 : ((14000000000000:ℚ) ≤ 1150) = False := by norm_num

lemma qle_b13 : ((170000000000000:ℚ) ≤ 1150) = False := by norm_num

lemma qle_b14 : ((2100000000000000:ℚ) ≤ 1150) = False := by norm_num

lemma qle_b15 : ((26000000000000000:ℚ) ≤ 1150) = False := by norm_num

lemma qle_b16 : ((310000000000000000:ℚ) ≤ 1150) = False := by norm_num

lemma qle_u1000 : ((1000:ℚ) ≤ 1150) = True := by norm_num

lemma qle_u5000 : ((5000:ℚ) ≤ 1150) = False := by norm_num

lemma qle_u11000 : ((11000:ℚ) ≤ 1150) = False := by norm_num

lemma qle_hc : ((1:ℚ) ≤ 0) = False := by norm_num

lemma qle_rif : ((100:ℚ) ≤ 200) = True := by norm_num

/-- On `stateC2`, `_get_building_options` with budget 1150 yields exactly
the Cursor option. -/
lemma evalBuildingOptsC2 : getBuildingOptions stateC2 1150 = [cursorOptionC2] := by
  simp only [getBuildingOptions, BUILDINGS, stateC2, countsOf,
        initialGameState, Building.get_price, calcBuildingEfficiency,
        Building.get_cps_contribution, Building.get_total_multiplier,
        Building.get_upgrade_multiplier, Building.get_building_specific_upgrades,
        Building.get_grandma_synergy_multiplier, Building.get_special_multiplier,
        GameState.get_building_count, GameState.has_upgrade, GameState.get_milk_multiplier,
        GameState.get_prestige_multiplier, assocGetD, assocLookup,
        List.filterMap_cons, List.filterMap_nil,
        qle_cursor31, qle_grandma18, qle_farm1, qle_farm1', qle_b4, qle_b5, qle_b6,
        qle_b7, qle_b8, qle_b9, qle_b10, qle_b11, qle_b12, qle_b13, qle_b14, qle_b15,
        qle_b16]
  simp
  norm_num [mkPurchaseOption, cursorOptionC2, BUILDING_PRICE_MULTIPLIER]

/-- The total CPS of `stateC2`. -/
lemma evalCpsC2 : computeTotalCps stateC2 = 1527 / 50 * tieRate := by
  simp [computeTotalCps, buildingManagerTotalCps, BUILDINGS, stateC2, countsOf,
        initialGameState, Building.get_cps_contribution, Building.get_total_multiplier,
        Building.get_upgrade_multiplier, Building.get_building_specific_upgrades,
        Building.get_grandma_synergy_multiplier, Building.get_special_multiplier,
        GameState.get_building_count, GameState.has_upgrade, GameState.get_milk_multiplier,
        GameState.get_prestige_multiplier, assocGetD, assocLookup, specialCps,
        globalMultiplier, upgradeGlobalMultiplier, seasonMultiplier, dragonMultiplier,
        pantheonMultiplier, pantheonFold, buffMultiplier, containsKey]
  ring_nf
  norm_num

/-- The total CPS of `stateC2` after hypothetically adding `Forwards from
grandma` (the counterfactual evaluated by the optimizer). -/
lemma evalCpsC2' : computeTotalCps (stateC2.add_upgrade "Forwards from grandma")
    = 4854 / 50 * tieRate := by
  simp [computeTotalCps, buildingManagerTotalCps, BUILDINGS, stateC2, countsOf,
        GameState.add_upgrade, setAdd,
        initialGameState, Building.get_cps_contribution, Building.get_total_multiplier,
        Building.get_upgrade_multiplier, Building.get_building_specific_upgrades,
        Building.get_grandma_synergy_multiplier, Building.get_special_multiplier,
        GameState.get_building_count, GameState.has_upgrade, GameState.get_milk_multiplier,
        GameState.get_prestige_multiplier, assocGetD, assocLookup, specialCps,
        globalMultiplier, upgradeGlobalMultiplier, seasonMultiplier, dragonMultiplier,
        pantheonMultiplier, pantheonFold, buffMultiplier, containsKey]
  ring_nf
  norm_num

/-- On `stateC2`, the only affordable upgrade is `Forwards from
grandma`. -/
lemma evalAffordableC2 :
    get_affordable_upgrades flagsC2 stateC2 = ["Forwards from grandma"] := by
  simp only [get_affordable_upgrades, UPGRADES, flagsC2, flagUnlocked, flagBought,
        Upgrade.can_afford, stateC2, initialGameState, assocLookup, List.map_cons,
        List.map_nil, List.filterMap_cons, List.filterMap_nil, qle_u1000, qle_u5000,
        qle_u11000, qle_hc]
  simp

/-- On `stateC2`, `_get_upgrade_options` yields exactly the `Forwards
from grandma` option, whose efficiency equals the Cursor option's. -/
lemma evalUpgradeOptionsC2 :
    (getUpgradeOptions initialCalcState flagsC2 stateC2 1150).1 = [forwardsOptionC2] := by
  simp only [getUpgradeOptions, evalAffordableC2, findUpgrade, UPGRADES, initialCalcState,
        List.find?, List.foldl_cons, List.foldl_nil, calcUpgradeEfficiency,
        calculate_total_cps, invalidate_cache, cacheKey, cacheInsert,
        evalCpsC2, evalCpsC2', qle_u1000]
  simp [evalCpsC2, evalCpsC2']
  norm_num [mkPurchaseOption, forwardsOptionC2, tieRate]

/-- Head of the stable insertion step. -/
lemma insertDesc_head (x : PurchaseOption) (l : List PurchaseOption) :
    (insertDesc x l).head? =
      (match l.head? with
       | none => some x
       | some y => if x.efficiency > y.efficiency then some x else some y) := by
  cases l with
  | nil => simp [insertDesc]
  | cons y ys =>
    simp only [insertDesc]
    by_cases h : x.efficiency > y.efficiency <;> simp [h]

/-- The head of the stable descending-by-efficiency sort is computed by
the first-maximum fold. -/
lemma foldl_insertDesc_head (l : List PurchaseOption) :
    ∀ acc : List PurchaseOption,
      (l.foldl (fun a x => insertDesc x a) acc).head? =
        l.foldl
          (fun o x =>
            match o with
            | none => some x
            | some y => if x.efficiency > y.efficiency then some x else some y)
          acc.head? := by
  induction l with
  | nil => intro acc; rfl
  | cons x xs ih =>
    intro acc
    simp only [List.foldl_cons]
    rw [ih, insertDesc_head]

/-- `sort` by descending efficiency followed by `[0]` returns the
earliest-enumerated option of maximal efficiency. -/
lemma sortByEfficiencyDesc_head (l : List PurchaseOption) :
    (sortByEfficiencyDesc l).head? = firstMaxByEfficiency l := by
  simpa [sortByEfficiencyDesc, firstMaxByEfficiency] using foldl_insertDesc_head l []

/-- C1: the claim that `calculate_total_cps` applies each global
multiplier (prestige, milk, achievement, global upgrades) exactly once
fails on the code: `Building.get_total_multiplier` multiplies milk and
prestige into every per-building contribution, and
`_calculate_global_multiplier` multiplies them into the sum again. On a
state with prestige level 1 and one Grandma the per-building sum is
already `1.01` and the global multiplier is again `1.01`, so the total is
`1.01² = 1.0201` instead of the single application `1.01`. -/
theorem cps_global_multiplier_applied_twice :
    computeTotalCps stateC1 = (10201 : ℚ) / 10000
    ∧ buildingManagerTotalCps stateC1 = (101 : ℚ) / 100
    ∧ globalMultiplier stateC1 = (101 : ℚ) / 100 := by
  refine ⟨?_, ?_, ?_⟩ <;>
  · simp [computeTotalCps, buildingManagerTotalCps, BUILDINGS, stateC1, countsOf,
        initialGameState, Building.get_cps_contribution, Building.get_total_multiplier,
        Building.get_upgrade_multiplier, Building.get_building_specific_upgrades,
        Building.get_grandma_synergy_multiplier, Building.get_special_multiplier,
        GameState.get_building_count, GameState.has_upgrade, GameState.get_milk_multiplier,
        GameState.get_prestige_multiplier, assocGetD, assocLookup, specialCps,
        globalMultiplier, upgradeGlobalMultiplier, seasonMultiplier, dragonMultiplier,
        pantheonMultiplier, pantheonFold, buffMultiplier, containsKey]
    try norm_num

/-- C2 (counterexample): on `stateC2` the affordable candidate set is
exactly the Cursor option and the `Forwards from grandma` option, which
have equal efficiency and different prices, yet `get_best_purchase`
returns the *more expensive* Cursor option (the stable sort keeps
enumeration order among ties, and buildings are enumerated before
upgrades), refuting the claim that the cheaper one is returned. -/
theorem best_purchase_tie_returns_pricier :
    (getAllPurchaseOptions initialCalcState flagsC2 stateC2 stateC2.cookies).1
      = [cursorOptionC2, forwardsOptionC2]
    ∧ cursorOptionC2.efficiency = forwardsOptionC2.efficiency
    ∧ forwardsOptionC2.price < cursorOptionC2.price
    ∧ (get_best_purchase initialCalcState flagsC2 stateC2 none).1 = some cursorOptionC2
    ∧ (get_best_purchase initialCalcState flagsC2 stateC2 none).1
        ≠ some forwardsOptionC2 := by
  have hcookies : stateC2.cookies = 1150 := by simp [stateC2, initialGameState]
  have hopts : (getAllPurchaseOptions initialCalcState flagsC2 stateC2 1150).1
      = [cursorOptionC2, forwardsOptionC2] := by
    simp [getAllPurchaseOptions, evalBuildingOptsC2, evalUpgradeOptionsC2]
  have hbest : (get_best_purchase initialCalcState flagsC2 stateC2 none).1
      = some cursorOptionC2 := by
    simp only [get_best_purchase, Option.getD, hcookies, hopts]
    simp only [sortByEfficiencyDesc, List.foldl_cons, List.foldl_nil, insertDesc]
    simp [cursorOptionC2, forwardsOptionC2, mkPurchaseOption]
  refine ⟨hcookies ▸ hopts, ?_, ?_, hbest, ?_⟩
  · simp [cursorOptionC2, forwardsOptionC2, mkPurchaseOption]
  · simp only [cursorOptionC2, forwardsOptionC2, mkPurchaseOption]
    norm_num [BUILDING_PRICE_MULTIPLIER]
  · rw [hbest]
    simp only [cursorOptionC2, forwardsOptionC2, mkPurchaseOption]
    intro h
    have := (Option.some.injEq _ _).mp h
    have hname : "building" = "upgrade" := congrArg PurchaseOption.type this
    simp at hname

/-- C2 (amended): `get_best_purchase` returns the single
highest-efficiency affordable option, but ties are broken by enumeration
order — it returns the earliest-enumerated option among those of maximal
efficiency (buildings in catalog order before upgrades in catalog
order), not the cheapest one. -/
theorem best_purchase_first_enumerated_max (c : CalcState) (fl : CatalogFlags)
    (gs : GameState) (budget : Option ℚ) :
    (get_best_purchase c fl gs budget).1 =
      firstMaxByEfficiency
        (getAllPurchaseOptions c fl gs (budget.getD gs.cookies)).1 := by
  simp [get_best_purchase, sortByEfficiencyDesc_head]

/-- C3: the claim fails on the code: `Upgrade.buy` records the purchase
on the shared module-level catalog object (`self.bought = True`), not
only in the buying `GameState`. Buying `Reinforced index finger` through
a deep copy of `stateC3` (deep copies of a `GameState` are equal values;
the catalog is not part of the copied state) flips the shared flag, and
the untouched original `stateC3` stops listing the upgrade as
available/purchasable even though no observation of `stateC3` itself
changed. -/
theorem buy_upgrade_mutates_shared_catalog :
    (buy_upgrade flagsC3 stateC3 "Reinforced index finger").2.2 = true
    ∧ "Reinforced index finger" ∈ get_available_upgrades flagsC3
    ∧ "Reinforced index finger" ∈ get_affordable_upgrades flagsC3 stateC3
    ∧ "Reinforced index finger" ∉
        get_available_upgrades (buy_upgrade flagsC3 stateC3 "Reinforced index finger").1
    ∧ "Reinforced index finger" ∉
        get_affordable_upgrades (buy_upgrade flagsC3 stateC3 "Reinforced index finger").1
          stateC3 := by
  refine ⟨?_, ?_, ?_, ?_, ?_⟩ <;>
  · simp only [buy_upgrade, findUpgrade, UPGRADES, List.find?, Upgrade.buy,
        Upgrade.can_afford, flagUnlocked, flagBought, flagsC3, setBought, insertAssoc,
        setAssoc, containsKey, assocLookup, stateC3, initialGameState,
        GameState.spend_cookies, GameState.add_upgrade, setAdd,
        get_available_upgrades, get_affordable_upgrades, List.map_cons, List.map_nil,
        List.filterMap_cons, List.filterMap_nil, qle_rif]
    try simp
    try norm_num

/-- C4: the claim fails on the code: after re-adding the buff `boost`
with `cps_mult` 3 in place of 2, the cache key (which fingerprints only
the buff *names*) is unchanged, so the next `calculate_total_cps` returns
the stale cached value `0.2` while a fresh, uncached computation on the
same state returns `0.3`. -/
theorem cps_cache_stale_after_buff_effect_change :
    (calculate_total_cps initialCalcState stateC4).1 = 1 / 5
    ∧ cacheKey stateC4' = cacheKey stateC4
    ∧ (calculate_total_cps (calculate_total_cps initialCalcState stateC4).2 stateC4').1
        = 1 / 5
    ∧ computeTotalCps stateC4' = 3 / 10
    ∧ (calculate_total_cps (calculate_total_cps initialCalcState stateC4).2 stateC4').1
        ≠ computeTotalCps stateC4' := by
  refine ⟨?_, ?_, ?_, ?_, ?_⟩ <;>
  · simp [calculate_total_cps, initialCalcState, cacheKey, cacheInsert, stateC4, stateC4',
        GameState.add_buff, insertAssoc, setAssoc, containsKey, assocLookup, countsOf,
        computeTotalCps, buildingManagerTotalCps, BUILDINGS,
        initialGameState, Building.get_cps_contribution, Building.get_total_multiplier,
        Building.get_upgrade_multiplier, Building.get_building_specific_upgrades,
        Building.get_grandma_synergy_multiplier, Building.get_special_multiplier,
        GameState.get_building_count, GameState.has_upgrade, GameState.get_milk_multiplier,
        GameState.get_prestige_multiplier, assocGetD, specialCps,
        globalMultiplier, upgradeGlobalMultiplier, seasonMultiplier, dragonMultiplier,
        pantheonMultiplier, pantheonFold, buffMultiplier]
    try norm_num

/-- Updating an existing key of an association list makes its lookup
return the new value. -/
lemma assocLookup_setAssoc {β : Type} (k : String) (v : β) (l : List (String × β)) :
    (assocLookup l k).isSome → assocLookup (setAssoc k v l) k = some v := by
  induction l with
  | nil => simp [assocLookup]
  | cons p rest ih =>
    by_cases h : p.1 == k
    · simp [assocLookup, setAssoc, h]
    · simp [assocLookup, setAssoc, h]
      exact ih

/-- C5: for every state with non-negative cookies and every positive
purchase amount, `buy_building` is a total no-op returning `False` when
the building id is unknown or the bulk price exceeds the cookies, and
otherwise returns `True`, deducts exactly the bulk price and adds exactly
`amount` to the owned count; in both cases cookies remain non-negative
(the purchase is rejected, never clamped). The well-formedness
hypothesis says the state's owned-count dict has a key for every catalog
building, as the constructor guarantees. -/
theorem buy_building_spec (gs : GameState) (building_name : String) (amount : ℕ)
    (hc : 0 ≤ gs.cookies) (_ha : 1 ≤ amount)
    (hwf : ∀ b ∈ BUILDINGS, (assocLookup gs.buildings b.name).isSome) :
    (findBuilding building_name = none →
      buy_building gs building_name amount = (false, gs))
    ∧ (∀ b, findBuilding building_name = some b →
        (gs.cookies < b.get_bulk_price (gs.get_building_count building_name) amount →
          buy_building gs building_name amount = (false, gs))
        ∧ (b.get_bulk_price (gs.get_building_count building_name) amount ≤ gs.cookies →
            (buy_building gs building_name amount).1 = true
            ∧ (buy_building gs building_name amount).2.cookies
                = gs.cookies -
                    b.get_bulk_price (gs.get_building_count building_name) amount
            ∧ (buy_building gs building_name amount).2.get_building_count building_name
                = gs.get_building_count building_name + amount))
    ∧ 0 ≤ (buy_building gs building_name amount).2.cookies := by
  refine ⟨?_, ?_, ?_⟩
  · intro h
    simp [buy_building, h]
  · intro b hb
    have hbmem : b ∈ BUILDINGS := List.mem_of_find?_eq_some hb
    have hbname : b.name = building_name := by
      have := List.find?_some hb
      simpa using this
    have hkey : (assocLookup gs.buildings building_name).isSome := by
      have := hwf b hbmem
      rwa [hbname] at this
    constructor
    · intro hlt
      have : ¬ (b.get_bulk_price (gs.get_building_count building_name) amount
          ≤ gs.cookies) := not_le.mpr hlt
      simp [buy_building, hb, GameState.spend_cookies, this]
    · intro hle
      have hcount : (GameState.add_building
          { gs with cookies := gs.cookies -
              b.get_bulk_price (gs.get_building_count building_name) amount }
          building_name amount).get_building_count building_name
          = gs.get_building_count building_name + amount := by
        simp only [GameState.add_building, containsKey, hkey, if_true]
        simp only [GameState.get_building_count, assocGetD]
        rw [assocLookup_setAssoc _ _ _ hkey]
        simp
      refine ⟨?_, ?_, ?_⟩
      · simp [buy_building, hb, GameState.spend_cookies, hle]
      · simp [buy_building, hb, GameState.spend_cookies, hle, GameState.add_building,
              containsKey, hkey]
      · simpa [buy_building, hb, GameState.spend_cookies, hle] using hcount
  · cases hfb : findBuilding building_name with
    | none => simpa [buy_building, hfb] using hc
    | some b =>
      by_cases hle : b.get_bulk_price (gs.get_building_count building_name) amount
          ≤ gs.cookies
      · simp [buy_building, hfb, GameState.spend_cookies, hle, GameState.add_building,
              containsKey]
        split
        · simp; linarith
        · simp; linarith
      · simpa [buy_building, hfb, GameState.spend_cookies, hle] using hc

/-- C5 witness: the contract applied to a fresh state with 100 cookies
buying 2 Cursors. -/
theorem buy_building_spec_witness :
    ((0 : ℚ) ≤ stateC5.cookies ∧ 1 ≤ 2
      ∧ (∀ b ∈ BUILDINGS, (assocLookup stateC5.buildings b.name).isSome))
    ∧ ((findBuilding "Cursor" = none → buy_building stateC5 "Cursor" 2 = (false, stateC5))
    ∧ (∀ b, findBuilding "Cursor" = some b →
        (stateC5.cookies < b.get_bulk_price (stateC5.get_building_count "Cursor") 2 →
          buy_building stateC5 "Cursor" 2 = (false, stateC5))
        ∧ (b.get_bulk_price (stateC5.get_building_count "Cursor") 2 ≤ stateC5.cookies →
            (buy_building stateC5 "Cursor" 2).1 = true
            ∧ (buy_building stateC5 "Cursor" 2).2.cookies
                = stateC5.cookies -
                    b.get_bulk_price (stateC5.get_building_count "Cursor") 2
            ∧ (buy_building stateC5 "Cursor" 2).2.get_building_count "Cursor"
                = stateC5.get_building_count "Cursor" + 2))
    ∧ 0 ≤ (buy_building stateC5 "Cursor" 2).2.cookies) := by
  have h1 : (0 : ℚ) ≤ stateC5.cookies := by
    simp [stateC5, initialGameState]
  have h3 : ∀ b ∈ BUILDINGS, (assocLookup stateC5.buildings b.name).isSome := by
    intro b hb
    fin_cases hb <;> simp [stateC5, initialGameState, BUILDINGS, assocLookup]
  exact ⟨⟨h1, by norm_num, h3⟩,
    buy_building_spec stateC5 "Cursor" 2 h1 (by norm_num) h3⟩

/-- C6: after `ascend()` every owned count is 0, cookies are 0, the
stored prestige level and the heavenly chips are non-decreasing, and the
full reset (zeroing currency, lifetime earned, counts, non-premium
upgrades, buffs and elapsed time) is performed even when the computed
prestige gain is not positive — the final conjunct shows that with no
gain the operation is exactly `reset_for_ascension`. -/
theorem ascend_invariants (gs : GameState) :
    (∀ p ∈ (ascendState gs).buildings, p.2 = 0)
    ∧ (ascendState gs).cookies = 0
    ∧ (ascendState gs).cookies_earned = 0
    ∧ (ascendState gs).buffs = []
    ∧ (ascendState gs).game_time = 0
    ∧ (ascendState gs).upgrades_owned
        = gs.upgrades_owned.filter (fun u => strContains u.toLower "heavenly")
    ∧ gs.prestige ≤ (ascendState gs).prestige
    ∧ gs.heavenly_chips ≤ (ascendState gs).heavenly_chips
    ∧ (calculatePrestigeFloor (gs.cookies_reset + gs.cookies_earned) ≤ gs.prestige →
        ascendState gs = gs.reset_for_ascension) := by
  have hbuild : ∀ gs' : GameState, ∀ p ∈ (gs'.reset_for_ascension).buildings, p.2 = 0 := by
    intro gs' p hp
    simp only [GameState.reset_for_ascension] at hp
    obtain ⟨q, hq, rfl⟩ := List.mem_map.mp hp
    rfl
  by_cases h : gs.prestige < calculatePrestigeFloor (gs.cookies_reset + gs.cookies_earned)
  · refine ⟨?_, ?_, ?_, ?_, ?_, ?_, ?_, ?_, ?_⟩ <;>
      first
        | (intro p hp
           simp only [ascendState, h, if_true] at hp
           exact hbuild _ p hp)
        | (simp [ascendState, h, GameState.reset_for_ascension]
           try positivity
           try omega)
  · refine ⟨?_, ?_, ?_, ?_, ?_, ?_, ?_, ?_, ?_⟩ <;>
      first
        | (intro p hp
           simp only [ascendState, h, if_false] at hp
           exact hbuild _ p hp)
        | (simp [ascendState, h, GameState.reset_for_ascension]
           try positivity
           try omega)

/-- C7: the prestige-level and required-cookies formulas are mutual
inverses: for every `L ≥ 0`,
`calculate_prestige (calculate_cookies_for_prestige L) = L` — exactly, in
the real-number model of the two floating-point formulas. -/
theorem prestige_round_trip (L : ℝ) (hL : 0 ≤ L) :
    calculate_prestige (calculate_cookies_for_prestige L) = L := by
  have hbase : (((PRESTIGE_BASE : ℚ)) : ℝ) ≠ 0 := by norm_num [PRESTIGE_BASE]
  unfold calculate_prestige calculate_cookies_for_prestige
  rw [mul_div_assoc, div_self hbase, mul_one]
  rw [← Real.rpow_natCast L HC_FACTOR]
  rw [← Real.rpow_mul hL]
  norm_num [HC_FACTOR]

/-- C7 witness: the round trip at level 2. -/
theorem prestige_round_trip_witness :
    (0:ℝ) ≤ 2 ∧ calculate_prestige (calculate_cookies_for_prestige 2) = 2 :=
  ⟨by norm_num, prestige_round_trip 2 (by norm_num)⟩

/-- C8: every catalog building uses the same constant growth factor 1.15,
`get_price` is exactly `base_price × 1.15ⁿ`, price is strictly increasing
in the owned count, and the ratio of consecutive prices is exactly the
growth factor. -/
theorem building_price_growth :
    ∀ b ∈ BUILDINGS, b.price_multiplier = BUILDING_PRICE_MULTIPLIER
      ∧ 0 < b.base_price
      ∧ ∀ n : ℕ, b.get_price n = b.base_price * BUILDING_PRICE_MULTIPLIER ^ n
        ∧ b.get_price n < b.get_price (n + 1)
        ∧ b.get_price (n + 1) / b.get_price n = BUILDING_PRICE_MULTIPLIER := by
  intro b hb
  have hm : b.price_multiplier = BUILDING_PRICE_MULTIPLIER ∧ 0 < b.base_price := by
    fin_cases hb <;> exact ⟨rfl, by norm_num⟩
  have hmpos : (0:ℚ) < BUILDING_PRICE_MULTIPLIER := by
    norm_num [BUILDING_PRICE_MULTIPLIER]
  have hone : (1:ℚ) < BUILDING_PRICE_MULTIPLIER := by
    norm_num [BUILDING_PRICE_MULTIPLIER]
  refine ⟨hm.1, hm.2, ?_⟩
  intro n
  have hformula : ∀ m : ℕ,
      b.get_price m = b.base_price * BUILDING_PRICE_MULTIPLIER ^ m := by
    intro m; rw [Building.get_price, hm.1]
  have hpow : BUILDING_PRICE_MULTIPLIER ^ n ≠ 0 := pow_ne_zero n (ne_of_gt hmpos)
  refine ⟨hformula n, ?_, ?_⟩
  · rw [hformula n, hformula (n+1)]
    have : BUILDING_PRICE_MULTIPLIER ^ n < BUILDING_PRICE_MULTIPLIER ^ (n+1) :=
      pow_lt_pow_right₀ hone (by omega)
    exact mul_lt_mul_of_pos_left this hm.2
  · have hbp : b.base_price * BUILDING_PRICE_MULTIPLIER ^ n ≠ 0 :=
      mul_ne_zero (ne_of_gt hm.2) hpow
    rw [hformula n, hformula (n+1), pow_succ, ← mul_assoc]
    exact mul_div_cancel_left₀ _ hbp

/-- C8 witness: the Cursor's first two prices. -/
theorem building_price_growth_witness :
    (⟨"Cursor", 15, 0.1, 0, BUILDING_PRICE_MULTIPLIER, false⟩ : Building) ∈ BUILDINGS
    ∧ (⟨"Cursor", 15, 0.1, 0, BUILDING_PRICE_MULTIPLIER, false⟩ : Building).get_price 0
        < (⟨"Cursor", 15, 0.1, 0, BUILDING_PRICE_MULTIPLIER, false⟩ : Building).get_price 1
    ∧ (⟨"Cursor", 15, 0.1, 0, BUILDING_PRICE_MULTIPLIER, false⟩ : Building).get_price 1
        / (⟨"Cursor", 15, 0.1, 0, BUILDING_PRICE_MULTIPLIER, false⟩ : Building).get_price 0
        = BUILDING_PRICE_MULTIPLIER := by
  have hmem : (⟨"Cursor", 15, 0.1, 0, BUILDING_PRICE_MULTIPLIER, false⟩ : Building)
      ∈ BUILDINGS := by
    unfold BUILDINGS
    exact List.mem_cons_self _ _
  have h := building_price_growth _ hmem
  exact ⟨hmem, (h.2.2 0).2.1, (h.2.2 0).2.2⟩

/-- Every catalog building has a positive base price and a positive
price multiplier. -/
lemma BUILDINGS_pos : ∀ b ∈ BUILDINGS, 0 < b.base_price ∧ 0 < b.price_multiplier := by
  intro b hb
  fin_cases hb <;> constructor <;> norm_num [BUILDING_PRICE_MULTIPLIER]

/-- Every catalog upgrade has a positive price. -/
lemma UPGRADES_price_pos : ∀ u ∈ UPGRADES, 0 < u.price := by
  intro u hu
  fin_cases hu <;> norm_num

/-- A constructed purchase option either has an infinite payback time or
a positive CPS increase (the divisor of the payback division). -/
lemma mkPurchaseOption_payback (t n : String) (p e ci : ℚ) :
    (mkPurchaseOption t n p e ci).payback_time = none
      ∨ 0 < (mkPurchaseOption t n p e ci).cps_increase := by
  by_cases h : ci > 0
  · right; simpa [mkPurchaseOption] using h
  · left; simp [mkPurchaseOption, h]

lemma mkPurchaseOption_price (t n : String) (p e ci : ℚ) :
    (mkPurchaseOption t n p e ci).price = p := rfl

/-- Every enumerated upgrade option has a positive (catalog) price and a
safe payback time. -/
lemma getUpgradeOptions_mem (c : CalcState) (fl : CatalogFlags) (gs : GameState)
    (budget : ℚ) :
    ∀ o ∈ (getUpgradeOptions c fl gs budget).1,
      0 < o.price ∧ (o.payback_time = none ∨ 0 < o.cps_increase) := by
  have key : ∀ (names : List String) (acc : List PurchaseOption × CalcState),
      (∀ o ∈ acc.1, 0 < o.price ∧ (o.payback_time = none ∨ 0 < o.cps_increase)) →
      ∀ o ∈ (names.foldl
        (fun acc uname =>
          match findUpgrade uname with
          | none => acc
          | some u =>
            if u.price ≤ budget then
              let r := calcUpgradeEfficiency acc.2 u gs
              (acc.1 ++ [mkPurchaseOption "upgrade" u.name u.price r.1 0], r.2)
            else acc) acc).1,
        0 < o.price ∧ (o.payback_time = none ∨ 0 < o.cps_increase) := by
    intro names
    induction names with
    | nil => intro acc hacc o ho; exact hacc o ho
    | cons x xs ih =>
      intro acc hacc o ho
      rw [List.foldl_cons] at ho
      refine ih _ ?_ o ho
      cases hfu : findUpgrade x with
      | none => simpa [hfu] using hacc
      | some u =>
        have humem : u ∈ UPGRADES := List.mem_of_find?_eq_some hfu
        by_cases hle : u.price ≤ budget
        · simp only [hfu, hle, if_true]
          intro o' ho'
          rcases List.mem_append.mp ho' with h | h
          · exact hacc o' h
          · rcases List.mem_singleton.mp h with rfl
            exact ⟨by simpa [mkPurchaseOption_price] using UPGRADES_price_pos u humem,
                   mkPurchaseOption_payback _ _ _ _ _⟩
        · simpa [hfu, hle] using hacc
  intro o ho
  exact key (get_affordable_upgrades fl gs) ([], c) (by simp) o ho

/-- Every enumerated building option has a positive price and a safe
payback time. -/
lemma getBuildingOptions_mem (gs : GameState) (budget : ℚ) :
    ∀ o ∈ getBuildingOptions gs budget,
      0 < o.price ∧ (o.payback_time = none ∨ 0 < o.cps_increase) := by
  intro o ho
  obtain ⟨b, hb, hfb⟩ := List.mem_filterMap.mp ho
  by_cases hle : b.get_price (gs.get_building_count b.name) ≤ budget
  · simp only [hle, if_true] at hfb
    simp only [Option.some.injEq] at hfb
    subst hfb
    have hpos : 0 < b.get_price (gs.get_building_count b.name) := by
      have h := BUILDINGS_pos b hb
      exact mul_pos h.1 (pow_pos h.2 _)
    exact ⟨hpos, mkPurchaseOption_payback _ _ _ _ _⟩
  · simp [hle] at hfb

/-- C10: the optimizer's efficiency and payback computations are total:
`PurchaseOption` stores an infinite payback time (never dividing) when
the CPS increase is not positive, the building and upgrade efficiency
functions return 0 when the price is not positive, and every option the
optimizer enumerates has a positive price — so no division in the
enumeration and ranking pipeline has a non-positive divisor. -/
theorem purchase_efficiency_total :
    (∀ (t n : String) (p e ci : ℚ), ci ≤ 0 →
        (mkPurchaseOption t n p e ci).payback_time = none)
    ∧ (∀ (t n : String) (p e ci : ℚ), 0 < ci →
        (mkPurchaseOption t n p e ci).payback_time = some (p / ci))
    ∧ (∀ (b : Building) (cur : ℕ) (gs : GameState), b.get_price cur ≤ 0 →
        calcBuildingEfficiency b cur gs = 0)
    ∧ (∀ (b : Building) (cur : ℕ) (gs : GameState), b.get_price cur ≤ 0 →
        b.get_efficiency cur gs = 0)
    ∧ (∀ (c : CalcState) (u : Upgrade) (gs : GameState), u.price ≤ 0 →
        (calcUpgradeEfficiency c u gs).1 = 0)
    ∧ (∀ (c : CalcState) (fl : CatalogFlags) (gs : GameState) (budget : ℚ),
        ∀ o ∈ (getAllPurchaseOptions c fl gs budget).1,
          0 < o.price ∧ (o.payback_time = none ∨ 0 < o.cps_increase)) := by
  refine ⟨?_, ?_, ?_, ?_, ?_, ?_⟩
  · intro t n p e ci h
    simp [mkPurchaseOption, not_lt.mpr h]
  · intro t n p e ci h
    simp [mkPurchaseOption, h]
  · intro b cur gs h
    simp [calcBuildingEfficiency, not_lt.mpr h]
  · intro b cur gs h
    simp [Building.get_efficiency, not_lt.mpr h]
  · intro c u gs h
    simp [calcUpgradeEfficiency, not_lt.mpr h]
  · intro c fl gs budget o ho
    have ho' : o ∈ getBuildingOptions gs budget ++ (getUpgradeOptions c fl gs budget).1 :=
      ho
    rcases List.mem_append.mp ho' with h | h
    · exact getBuildingOptions_mem gs budget o h
    · exact getUpgradeOptions_mem c fl gs budget o h

/-- C10 witness: a zero CPS increase gives an infinite payback; a
zero-price building and a zero-price upgrade give zero efficiency; and a
concretely enumerated option has a positive price and safe payback. -/
theorem purchase_efficiency_total_witness :
    ((0:ℚ) ≤ 0 ∧ (mkPurchaseOption "building" "Cursor" 15 0 0).payback_time = none)
    ∧ ((0:ℚ) < 1 ∧ (mkPurchaseOption "building" "Cursor" 15 0 1).payback_time
        = some (15 / 1))
    ∧ ((⟨"Freebie", 0, 1, 0, BUILDING_PRICE_MULTIPLIER, false⟩ : Building).get_price 0 ≤ 0
        ∧ calcBuildingEfficiency ⟨"Freebie", 0, 1, 0, BUILDING_PRICE_MULTIPLIER, false⟩ 0
            initialGameState = 0
        ∧ (⟨"Freebie", 0, 1, 0, BUILDING_PRICE_MULTIPLIER, false⟩ : Building).get_efficiency
            0 initialGameState = 0)
    ∧ ((⟨"Free", 0, "special_effect", 0, none, false, none⟩ : Upgrade).price ≤ 0
        ∧ (calcUpgradeEfficiency initialCalcState
            ⟨"Free", 0, "special_effect", 0, none, false, none⟩ initialGameState).1 = 0)
    ∧ (cursorOptionC2 ∈ (getAllPurchaseOptions initialCalcState flagsC2 stateC2 1150).1
        ∧ 0 < cursorOptionC2.price
        ∧ (cursorOptionC2.payback_time = none ∨ 0 < cursorOptionC2.cps_increase)) := by
  have hb0 : (⟨"Freebie", 0, 1, 0, BUILDING_PRICE_MULTIPLIER, false⟩ : Building).get_price 0
      ≤ 0 := by
    simp [Building.get_price]
  have hu0 : (⟨"Free", 0, "special_effect", 0, none, false, none⟩ : Upgrade).price ≤ 0 :=
    le_refl 0
  have hmem : cursorOptionC2
      ∈ (getAllPurchaseOptions initialCalcState flagsC2 stateC2 1150).1 := by
    simp [getAllPurchaseOptions, evalBuildingOptsC2, evalUpgradeOptionsC2]
  refine ⟨⟨le_refl 0, purchase_efficiency_total.1 _ _ _ _ _ (le_refl 0)⟩,
          ⟨one_pos, purchase_efficiency_total.2.1 _ _ _ _ _ one_pos⟩,
          ⟨hb0, purchase_efficiency_total.2.2.1 _ _ _ hb0,
               purchase_efficiency_total.2.2.2.1 _ _ _ hb0⟩,
          ⟨hu0, purchase_efficiency_total.2.2.2.2.1 _ _ _ hu0⟩,
          ⟨hmem, purchase_efficiency_total.2.2.2.2.2 _ _ _ _ _ hmem⟩⟩

lemma calc_fresh (c : CalcState) (gs : GameState) (h : c.cache_valid = false) :
    (calculate_total_cps c gs).1 = computeTotalCps gs := by
  simp [calculate_total_cps, h]

lemma buy_building_frame (gs : GameState) (name : String) (amt : ℕ) :
    (buy_building gs name amt).2.buffs = gs.buffs
    ∧ (buy_building gs name amt).2.cookies_earned = gs.cookies_earned := by
  unfold buy_building
  cases findBuilding name with
  | none => exact ⟨rfl, rfl⟩
  | some b =>
    simp only [GameState.spend_cookies, GameState.add_building]
    split <;> (try split) <;> (try split) <;> simp

lemma buy_upgrade_frame (fl : CatalogFlags) (gs : GameState) (name : String) :
    (buy_upgrade fl gs name).2.1.buffs = gs.buffs
    ∧ (buy_upgrade fl gs name).2.1.cookies_earned = gs.cookies_earned := by
  unfold buy_upgrade
  cases findUpgrade name with
  | none => exact ⟨rfl, rfl⟩
  | some u =>
    simp only [Upgrade.buy, GameState.spend_cookies, GameState.add_upgrade]
    split
    · exact ⟨rfl, rfl⟩
    · split
      · exact ⟨rfl, rfl⟩
      · split <;> (try split) <;> simp

lemma autoPurchaseLoop_frame (fuel : ℕ) (s : SimState) :
    (autoPurchaseLoop fuel s).game_state.buffs = s.game_state.buffs
    ∧ (autoPurchaseLoop fuel s).game_state.cookies_earned = s.game_state.cookies_earned
    ∧ (autoPurchaseLoop fuel s).auto_ascend_enabled = s.auto_ascend_enabled := by
  induction fuel generalizing s with
  | zero => exact ⟨rfl, rfl, rfl⟩
  | succ n ih =>
    simp only [autoPurchaseLoop]
    cases hbp : (get_best_purchase s.opt_calculator s.catalog s.game_state none).1 with
    | none => exact ⟨rfl, rfl, rfl⟩
    | some best =>
      have hfb := buy_building_frame s.game_state best.name 1
      have hfu := buy_upgrade_frame s.catalog s.game_state best.name
      by_cases hb : best.type = "building"
      · simp only [hb, if_true]
        cases hok : (buy_building s.game_state best.name 1).1
        · simp only [Bool.false_eq_true, if_false]
          exact ⟨hfb.1, hfb.2, by trivial⟩
        · simp only [if_true]
          exact ⟨(ih _).1.trans hfb.1, (ih _).2.1.trans hfb.2, (ih _).2.2⟩
      · by_cases hu : best.type = "upgrade"
        · simp only [hb, hu, if_false, if_true]
          cases hok : (buy_upgrade s.catalog s.game_state best.name).2.2
          · simp only [Bool.false_eq_true, if_false]
            exact ⟨hfu.1, hfu.2, by trivial⟩
          · simp only [if_true]
            exact ⟨(ih _).1.trans hfu.1, (ih _).2.1.trans hfu.2, (ih _).2.2⟩
        · simp only [hb, hu, if_false]
          exact ⟨by trivial, by trivial, by trivial⟩

lemma update_unlocks_shape (fl : CatalogFlags) (gs : GameState) :
    ∃ fl' U, update_unlocks fl gs = (fl', { gs with upgrades_unlocked := U }) := by
  have key : ∀ (us : List Upgrade) (p : CatalogFlags × GameState),
      ∃ fl' U, us.foldl
        (fun acc u =>
          if ¬ flagUnlocked acc.1 u.name ∧ ¬ flagBought acc.1 u.name ∧
              u.check_unlock_condition acc.2 then
            (setUnlocked acc.1 u.name,
             { acc.2 with upgrades_unlocked := setAdd acc.2.upgrades_unlocked u.name })
          else acc) p = (fl', { p.2 with upgrades_unlocked := U }) := by
    intro us
    induction us with
    | nil =>
      intro p
      exact ⟨p.1, p.2.upgrades_unlocked, rfl⟩
    | cons u rest ih =>
      intro p
      rw [List.foldl_cons]
      by_cases hc : ¬ flagUnlocked p.1 u.name ∧ ¬ flagBought p.1 u.name ∧
          u.check_unlock_condition p.2
      · simp only [hc, if_true]
        obtain ⟨fl', U, h⟩ := ih (setUnlocked p.1 u.name,
          { p.2 with upgrades_unlocked := setAdd p.2.upgrades_unlocked u.name })
        exact ⟨fl', U, h⟩
      · simp only [hc, if_false]
        exact ih p
  exact key UPGRADES (fl, gs)

lemma updateBuffsList_pos (l : List (String × Buff)) (dt : ℚ) :
    ∀ p ∈ GameState.updateBuffsList l dt, 0 < p.2.duration := by
  intro p hp
  simp only [GameState.updateBuffsList, List.mem_filter] at hp
  have h := hp.2
  simp only [decide_eq_true_eq] at h
  exact lt_of_not_le h

lemma assocLookup_eq_none_of_not_mem {β : Type} (l : List (String × β)) (n : String)
    (h : n ∉ l.map (fun p => p.1)) : assocLookup l n = none := by
  induction l with
  | nil => rfl
  | cons q rest ih =>
    simp only [List.map_cons, List.mem_cons] at h
    push_neg at h
    have : (q.1 == n) = false := by
      simp [beq_eq_false_iff_ne]
      exact fun hq => h.1 hq.symm
    simp [assocLookup, this]
    exact ih h.2

lemma keys_updateBuffsList (l : List (String × Buff)) (dt : ℚ) :
    ∀ x ∈ (GameState.updateBuffsList l dt).map (fun p => p.1),
      x ∈ l.map (fun p => p.1) := by
  intro x hx
  simp only [GameState.updateBuffsList, List.map_map, List.mem_map] at hx ⊢
  obtain ⟨p, hp, rfl⟩ := hx
  have hp' := List.mem_of_mem_filter hp
  simp only [List.mem_map] at hp'
  obtain ⟨q, hq, rfl⟩ := hp'
  exact ⟨q, hq, rfl⟩

lemma updateBuffsList_lookup (l : List (String × Buff)) (dt : ℚ)
    (hnd : (l.map (fun p => p.1)).Nodup) :
    ∀ p ∈ l,
      (p.2.duration ≤ dt → assocLookup (GameState.updateBuffsList l dt) p.1 = none)
      ∧ (dt < p.2.duration → assocLookup (GameState.updateBuffsList l dt) p.1
          = some (Buff.mk (p.2.duration - dt) p.2.effect_cps_mult p.2.start_time)) := by
  induction l with
  | nil => simp
  | cons q rest ih =>
    simp only [List.map_cons, List.nodup_cons] at hnd
    intro p hp
    rcases List.mem_cons.mp hp with rfl | hpr
    · constructor
      · intro hle
        have hpred : ¬ (0 < p.2.duration - dt) := by
          simp only [not_lt]
          linarith
        simp only [GameState.updateBuffsList, List.map_cons, List.filter_cons]
        simp only [decide_eq_true_eq, not_le, hpred, if_false]
        have : assocLookup (GameState.updateBuffsList rest dt) p.1 = none := by
          apply assocLookup_eq_none_of_not_mem
          intro hc
          exact hnd.1 (keys_updateBuffsList rest dt p.1 hc)
        simpa [GameState.updateBuffsList] using this
      · intro hlt
        have hpred : 0 < p.2.duration - dt := by linarith
        simp only [GameState.updateBuffsList, List.map_cons, List.filter_cons]
        simp only [decide_eq_true_eq, not_le, hpred, if_true]
        simp [assocLookup]
    · have hne : q.1 ≠ p.1 := by
        intro hq
        apply hnd.1
        rw [hq]
        exact List.mem_map.mpr ⟨p, hpr, rfl⟩
      have hki := ih hnd.2 p hpr
      constructor
      · intro hle
        simp only [GameState.updateBuffsList, List.map_cons, List.filter_cons]
        by_cases hq : 0 < q.2.duration - dt
        · simp only [decide_eq_true_eq, not_le, hq, if_true]
          simp [assocLookup, hne]
          simpa [GameState.updateBuffsList] using hki.1 hle
        · simp only [decide_eq_true_eq, not_le, hq, if_false]
          simpa [GameState.updateBuffsList] using hki.1 hle
      · intro hlt
        simp only [GameState.updateBuffsList, List.map_cons, List.filter_cons]
        by_cases hq : 0 < q.2.duration - dt
        · simp only [decide_eq_true_eq, not_le, hq, if_true]
          simp [assocLookup, hne]
          simpa [GameState.updateBuffsList] using hki.2 hlt
        · simp only [decide_eq_true_eq, not_le, hq, if_false]
          simpa [GameState.updateBuffsList] using hki.2 hlt

lemma update_unlocks_gs_buffs (fl : CatalogFlags) (gs : GameState) :
    (update_unlocks fl gs).2.buffs = gs.buffs := by
  obtain ⟨fl', U, h⟩ := update_unlocks_shape fl gs
  rw [h]

lemma update_unlocks_gs_earned (fl : CatalogFlags) (gs : GameState) :
    (update_unlocks fl gs).2.cookies_earned = gs.cookies_earned := by
  obtain ⟨fl', U, h⟩ := update_unlocks_shape fl gs
  rw [h]

lemma autoPurchaseLoop_buffs (fuel : ℕ) (s : SimState) :
    (autoPurchaseLoop fuel s).game_state.buffs = s.game_state.buffs :=
  (autoPurchaseLoop_frame fuel s).1

lemma autoPurchaseLoop_earned (fuel : ℕ) (s : SimState) :
    (autoPurchaseLoop fuel s).game_state.cookies_earned = s.game_state.cookies_earned :=
  (autoPurchaseLoop_frame fuel s).2.1

lemma autoClick_buffs (s : SimState) (dt : ℚ) :
    (autoClick s dt).game_state.buffs = s.game_state.buffs := rfl

lemma autoClick_buy_flag (s : SimState) (dt : ℚ) :
    (autoClick s dt).auto_buy_enabled = s.auto_buy_enabled := rfl

lemma autoClick_ascend_flag (s : SimState) (dt : ℚ) :
    (autoClick s dt).auto_ascend_enabled = s.auto_ascend_enabled := rfl

lemma autoPurchaseLoop_ascend_flag (fuel : ℕ) (s : SimState) :
    (autoPurchaseLoop fuel s).auto_ascend_enabled = s.auto_ascend_enabled :=
  (autoPurchaseLoop_frame fuel s).2.2

set_option maxHeartbeats 1000000 in
lemma simulateStep_buffs_earned (s : SimState) (dt : ℚ)
    (hasc : s.auto_ascend_enabled = false) :
    (simulateStep s dt).game_state.buffs
      = GameState.updateBuffsList s.game_state.buffs dt
    ∧ (s.auto_click_enabled = false → s.cps_calculator.cache_valid = false →
        (simulateStep s dt).game_state.cookies_earned
          = s.game_state.cookies_earned + computeTotalCps s.game_state * dt) := by
  constructor
  · by_cases hclick : s.auto_click_enabled <;> by_cases hbuy : s.auto_buy_enabled <;>
      simp only [simulateStep, hclick, hbuy, hasc, Bool.false_eq_true, if_false,
            if_true, autoPurchaseLoop_buffs, update_unlocks_gs_buffs, autoClick_buffs,
            autoClick_buy_flag, autoClick_ascend_flag, autoPurchaseLoop_ascend_flag,
            GameState.update_buffs, GameState.earn_cookies]
  · intro hclick hvalid
    by_cases hbuy : s.auto_buy_enabled <;>
      simp only [simulateStep, hclick, hbuy, hasc, Bool.false_eq_true, if_false,
            if_true, autoPurchaseLoop_earned, update_unlocks_gs_earned,
            autoClick_buy_flag, autoClick_ascend_flag, autoPurchaseLoop_ascend_flag,
            GameState.update_buffs, GameState.earn_cookies,
            calc_fresh s.cps_calculator s.game_state hvalid]

lemma containsKey_eq_keys {β : Type} (l : List (String × β)) (n : String) :
    containsKey l n = (l.map (fun p => p.1)).contains n := by
  induction l with
  | nil => rfl
  | cons p rest ih =>
    by_cases h : (p.1 == n) = true
    · have h' : (n == p.1) = true := by
        simp only [beq_iff_eq] at h ⊢
        exact h.symm
      simp [containsKey, assocLookup, h, h', List.contains_cons]
    · have h0 : (p.1 == n) = false := by
        cases hb : (p.1 == n) with
        | false => rfl
        | true => exact absurd hb h
      have h' : (n == p.1) = false := by
        simp only [beq_eq_false_iff_ne] at h0 ⊢
        exact fun hn => h0 hn.symm
      simp only [containsKey, assocLookup, h0, Bool.false_eq_true, if_false,
        List.map_cons, List.contains_cons, h', Bool.false_or]
      exact ih

lemma buffFold_eq (l : List (String × Buff)) (init : ℚ) :
    l.foldl (fun m p => match p.2.effect_cps_mult with
      | some r => m * r
      | none => m) init
    = (l.map (fun p => p.2.effect_cps_mult)).foldl (fun m e => match e with
      | some r => m * r
      | none => m) init := by
  induction l generalizing init with
  | nil => rfl
  | cons p rest ih => simp only [List.foldl_cons, List.map_cons, ih]

lemma buffMultiplier_congr (gs gs' : GameState)
    (hk : gs.buffs.map (fun p => p.1) = gs'.buffs.map (fun p => p.1))
    (he : gs.buffs.map (fun p => p.2.effect_cps_mult)
        = gs'.buffs.map (fun p => p.2.effect_cps_mult)) :
    buffMultiplier gs = buffMultiplier gs' := by
  unfold buffMultiplier
  rw [containsKey_eq_keys, containsKey_eq_keys, containsKey_eq_keys,
      containsKey_eq_keys gs'.buffs, containsKey_eq_keys gs'.buffs,
      containsKey_eq_keys gs'.buffs, buffFold_eq, buffFold_eq, hk, he]

lemma preBuffCps_congr (gs gs' : GameState)
    (h1 : gs.buildings = gs'.buildings)
    (h2 : gs.building_levels = gs'.building_levels)
    (h3 : gs.upgrades_owned = gs'.upgrades_owned)
    (h4 : gs.prestige = gs'.prestige)
    (h5 : gs.heavenly_power = gs'.heavenly_power)
    (h6 : gs.ascension_mode = gs'.ascension_mode)
    (h7 : gs.milk_progress = gs'.milk_progress)
    (h8 : gs.milk_type = gs'.milk_type)
    (h9 : gs.season = gs'.season)
    (h10 : gs.pantheon_slots = gs'.pantheon_slots) :
    (buildingManagerTotalCps gs + specialCps gs) * globalMultiplier gs
      = (buildingManagerTotalCps gs' + specialCps gs') * globalMultiplier gs' := by
  unfold buildingManagerTotalCps specialCps globalMultiplier upgradeGlobalMultiplier
    seasonMultiplier dragonMultiplier pantheonMultiplier
  simp only [Building.get_cps_contribution, Building.get_total_multiplier,
    Building.get_upgrade_multiplier, Building.get_grandma_synergy_multiplier,
    Building.get_special_multiplier, GameState.get_building_count,
    GameState.has_upgrade, GameState.get_milk_multiplier,
    GameState.get_prestige_multiplier, assocGetD]
  simp only [h1, h2, h3, h4, h5, h6, h7, h8, h9, h10]

lemma computeTotalCps_congr (gs gs' : GameState)
    (h1 : gs.buildings = gs'.buildings)
    (h2 : gs.building_levels = gs'.building_levels)
    (h3 : gs.upgrades_owned = gs'.upgrades_owned)
    (h4 : gs.prestige = gs'.prestige)
    (h5 : gs.heavenly_power = gs'.heavenly_power)
    (h6 : gs.ascension_mode = gs'.ascension_mode)
    (h7 : gs.milk_progress = gs'.milk_progress)
    (h8 : gs.milk_type = gs'.milk_type)
    (h9 : gs.season = gs'.season)
    (h10 : gs.pantheon_slots = gs'.pantheon_slots)
    (hk : gs.buffs.map (fun p => p.1) = gs'.buffs.map (fun p => p.1))
    (he : gs.buffs.map (fun p => p.2.effect_cps_mult)
        = gs'.buffs.map (fun p => p.2.effect_cps_mult)) :
    computeTotalCps gs = computeTotalCps gs' := by
  unfold computeTotalCps
  rw [preBuffCps_congr gs gs' h1 h2 h3 h4 h5 h6 h7 h8 h9 h10,
      buffMultiplier_congr gs gs' hk he]

lemma buffMultiplier_nil (gs : GameState) (h : gs.buffs = []) :
    buffMultiplier gs = 1 := by
  simp [buffMultiplier, containsKey, assocLookup, h]

lemma computeTotalCps_eq_mul (gs : GameState) :
    computeTotalCps gs = buffMultiplier gs * computeTotalCps { gs with buffs := [] } := by
  unfold computeTotalCps
  rw [buffMultiplier_nil { gs with buffs := [] } rfl]
  rw [preBuffCps_congr gs { gs with buffs := [] } rfl rfl rfl rfl rfl rfl rfl rfl rfl rfl]
  ring

lemma kWithName_ne_kNoBuffs (gs0 : GameState) (nm : String) :
    (kWithName gs0 nm == kNoBuffs gs0) = false := by
  apply beq_eq_false_iff_ne.mpr
  intro h
  have := congrArg CacheKey.buff_names h
  simp [kWithName, kNoBuffs] at this

lemma unitBuffs_step (nm : String) (bf : Buff) (n : ℕ) :
    GameState.updateBuffsList (unitBuffs nm bf n) 1 = unitBuffs nm bf (n + 1) := by
  unfold unitBuffs GameState.updateBuffsList
  by_cases hpn : (n : ℚ) < bf.duration
  · simp only [hpn, if_true]
    by_cases hpn1 : ((n + 1 : ℕ) : ℚ) < bf.duration
    · have hpn1' : ((n : ℚ) + 1) < bf.duration := by push_cast at hpn1; exact hpn1
      have hc : 0 < bf.duration - (n : ℚ) - 1 := by linarith
      have hd : bf.duration - (n : ℚ) - 1 = bf.duration - ((n : ℕ) + 1 : ℚ) := by
        ring
      simp only [List.map_cons, List.map_nil, List.filter, hd]
      simp [hpn1']
    · have hpn1' : ¬ ((n : ℚ) + 1) < bf.duration := by push_cast at hpn1; exact hpn1
      have hc : bf.duration - (n : ℚ) - 1 ≤ 0 := by
        linarith [not_lt.mp hpn1']
      have hc' : ¬ (0 < bf.duration - (n : ℚ) - 1) := not_lt.mpr hc
      simp [List.filter, hpn1', hc, hc']
  · have hpn' : bf.duration ≤ (n : ℚ) := not_lt.mp hpn
    have hpn1' : ¬ ((n : ℚ) + 1) < bf.duration := by push_cast; linarith
    simp [hpn, hpn1']

lemma unitEarned_succ (gs0 : GameState) (bf : Buff) (n : ℕ) :
    unitEarned gs0 bf (n + 1)
      = unitEarned gs0 bf n +
        (if (n : ℚ) < bf.duration then computeTotalCps gs0
         else computeTotalCps { gs0 with buffs := [] }) := by
  unfold unitEarned
  rw [Finset.sum_range_succ]
  ring

lemma unitCalc_step (gs0 : GameState) (nm : String) (bf : Buff)
    (hb : gs0.buffs = [(nm, bf)]) (hD : 0 < bf.duration) (n : ℕ)
    (GS : GameState)
    (hf1 : GS.buildings = gs0.buildings)
    (hf2 : GS.building_levels = gs0.building_levels)
    (hf3 : GS.upgrades_owned = gs0.upgrades_owned)
    (hf4 : GS.prestige = gs0.prestige)
    (hf5 : GS.heavenly_power = gs0.heavenly_power)
    (hf6 : GS.ascension_mode = gs0.ascension_mode)
    (hf7 : GS.milk_progress = gs0.milk_progress)
    (hf8 : GS.milk_type = gs0.milk_type)
    (hf9 : GS.season = gs0.season)
    (hf10 : GS.pantheon_slots = gs0.pantheon_slots)
    (hfb : GS.buffs = unitBuffs nm bf n) :
    calculate_total_cps (unitCalc gs0 nm bf n) GS
      = ((if (n : ℚ) < bf.duration then computeTotalCps gs0
          else computeTotalCps { gs0 with buffs := [] }),
         unitCalc gs0 nm bf (n + 1)) := by
  have hkey : cacheKey GS
      = (if (n : ℚ) < bf.duration then kWithName gs0 nm else kNoBuffs gs0) := by
    unfold cacheKey kWithName kNoBuffs
    rw [hf1, hf3, hf4, hf7, hfb]
    unfold unitBuffs
    by_cases h : (n : ℚ) < bf.duration <;> simp [h]
  have hVpres : (n : ℚ) < bf.duration → computeTotalCps GS = computeTotalCps gs0 := by
    intro hpn
    apply computeTotalCps_congr GS gs0 hf1 hf2 hf3 hf4 hf5 hf6 hf7 hf8 hf9 hf10 <;>
      rw [hfb, hb] <;> simp [unitBuffs, hpn]
  have hVabs : ¬ (n : ℚ) < bf.duration →
      computeTotalCps GS = computeTotalCps { gs0 with buffs := [] } := by
    intro hpn
    apply computeTotalCps_congr GS { gs0 with buffs := [] }
      hf1 hf2 hf3 hf4 hf5 hf6 hf7 hf8 hf9 hf10 <;>
      rw [hfb] <;> simp [unitBuffs, hpn]
  cases n with
  | zero =>
    have hp0 : ((0 : ℕ) : ℚ) < bf.duration := by push_cast; exact hD
    simp only [Nat.cast_zero] at hp0
    rw [show unitCalc gs0 nm bf 0 = ⟨[], false⟩ from rfl]
    simp only [calculate_total_cps, Bool.false_eq_true, if_false]
    rw [hkey]
    simp only [Nat.cast_zero, hp0, if_true, hVpres (by simpa using hp0)]
    simp only [cacheInsert, assocLookup, Option.isSome_none, Bool.false_eq_true, if_false,
      List.nil_append]
    rw [show unitCalc gs0 nm bf 1 = ⟨[(kWithName gs0 nm, computeTotalCps gs0)], true⟩ from
      by simp [unitCalc, hD]]
  | succ m =>
    have hCn : unitCalc gs0 nm bf (m + 1)
        = if ((m : ℕ) : ℚ) < bf.duration
          then ⟨[(kWithName gs0 nm, computeTotalCps gs0)], true⟩
          else ⟨[(kWithName gs0 nm, computeTotalCps gs0),
                 (kNoBuffs gs0, computeTotalCps { gs0 with buffs := [] })], true⟩ := by
      simp [unitCalc]
    by_cases hpn : ((m + 1 : ℕ) : ℚ) < bf.duration
    · have hpm : ((m : ℕ) : ℚ) < bf.duration := by
        push_cast at hpn ⊢; linarith
      have hpnc : ((m : ℚ) + 1) < bf.duration := by push_cast at hpn; exact hpn
      have hCn1 : unitCalc gs0 nm bf (m + 1 + 1)
          = ⟨[(kWithName gs0 nm, computeTotalCps gs0)], true⟩ := by
        simp [unitCalc, hpnc]
      rw [hCn, if_pos hpm]
      simp only [calculate_total_cps, if_true]
      rw [hkey, if_pos hpn]
      simp only [assocLookup, beq_self_eq_true, if_true]
      rw [if_pos hpn, hCn1]
    · have hpnc : ¬ ((m : ℚ) + 1) < bf.duration := by push_cast at hpn; exact hpn
      have hCn1 : unitCalc gs0 nm bf (m + 1 + 1)
          = ⟨[(kWithName gs0 nm, computeTotalCps gs0),
              (kNoBuffs gs0, computeTotalCps { gs0 with buffs := [] })], true⟩ := by
        simp [unitCalc, hpnc]
      rw [hCn]
      by_cases hpm : ((m : ℕ) : ℚ) < bf.duration
      · rw [if_pos hpm]
        simp only [calculate_total_cps, if_true]
        rw [hkey, if_neg hpn]
        simp only [assocLookup, kWithName_ne_kNoBuffs, Bool.false_eq_true, if_false]
        rw [hVabs hpn]
        simp only [cacheInsert, assocLookup, kWithName_ne_kNoBuffs, Bool.false_eq_true,
          if_false, Option.isSome_none, List.cons_append, List.nil_append]
        rw [if_neg hpn, hCn1]
      · rw [if_neg hpm]
        simp only [calculate_total_cps, if_true]
        rw [hkey, if_neg hpn]
        simp only [assocLookup, kWithName_ne_kNoBuffs, Bool.false_eq_true, if_false,
          beq_self_eq_true, if_true]
        rw [if_neg hpn, hCn1]

set_option maxHeartbeats 1600000 in
lemma unitBuff_invariant (gs0 : GameState) (fl : CatalogFlags) (nm : String) (bf : Buff)
    (hb : gs0.buffs = [(nm, bf)]) (hD : 0 < bf.duration) :
    ∀ j : ℕ, ∃ X R T U fl2 q1 q2 q3,
      (fun t => simulateStep t 1)^[j] (manualSimulator gs0 fl)
        = SimState.mk
            { gs0 with
                cookies := X,
                cookies_per_second := R,
                game_time := T,
                upgrades_unlocked := U,
                cookies_earned := unitEarned gs0 bf j,
                buffs := unitBuffs nm bf j }
            fl2 (unitCalc gs0 nm bf j) initialCalcState
            false false false q1 q2 q3 0 0 0 := by
  intro j
  induction j with
  | zero =>
    refine ⟨gs0.cookies, gs0.cookies_per_second, gs0.game_time, gs0.upgrades_unlocked,
      fl, 0, 0, 0, ?_⟩
    rw [Function.iterate_zero_apply]
    have hE : unitEarned gs0 bf 0 = gs0.cookies_earned := by
      simp [unitEarned]
    have hB : unitBuffs nm bf 0 = gs0.buffs := by
      rw [hb]
      simp [unitBuffs, hD]
    rw [hE, hB]
    rfl
  | succ n ih =>
    obtain ⟨X, R, T, U, fl2, q1, q2, q3, hrec⟩ := ih
    rw [Function.iterate_succ_apply', hrec]
    have hv := unitCalc_step gs0 nm bf hb hD n
      { gs0 with
          cookies := X,
          cookies_per_second := R,
          game_time := T,
          upgrades_unlocked := U,
          cookies_earned := unitEarned gs0 bf n,
          buffs := unitBuffs nm bf n }
      rfl rfl rfl rfl rfl rfl rfl rfl rfl rfl rfl
    by_cases hpn : ((n : ℕ) : ℚ) < bf.duration
    · rw [if_pos hpn] at hv
      have hE1 : unitEarned gs0 bf (n + 1)
          = unitEarned gs0 bf n + computeTotalCps gs0 * 1 := by
        rw [unitEarned_succ, if_pos hpn, mul_one]
      obtain ⟨fl3, U3, hsh⟩ := update_unlocks_shape fl2
        { gs0 with
            cookies := X + computeTotalCps gs0 * 1,
            cookies_per_second := computeTotalCps gs0,
            game_time := T,
            upgrades_unlocked := U,
            cookies_earned := unitEarned gs0 bf n + computeTotalCps gs0 * 1,
            buffs := unitBuffs nm bf (n + 1) }
      refine ⟨X + computeTotalCps gs0 * 1, computeTotalCps gs0, T + 1, U3, fl3,
        q1 + 1, q2 + 1, q3 + computeTotalCps gs0 * 1, ?_⟩
      simp only [simulateStep, hv, GameState.earn_cookies, GameState.update_buffs,
        unitBuffs_step nm bf n, hsh, hE1, Bool.false_eq_true, if_false]
    · rw [if_neg hpn] at hv
      have hE1 : unitEarned gs0 bf (n + 1)
          = unitEarned gs0 bf n + computeTotalCps { gs0 with buffs := [] } * 1 := by
        rw [unitEarned_succ, if_neg hpn, mul_one]
      obtain ⟨fl3, U3, hsh⟩ := update_unlocks_shape fl2
        { gs0 with
            cookies := X + computeTotalCps { gs0 with buffs := [] } * 1,
            cookies_per_second := computeTotalCps { gs0 with buffs := [] },
            game_time := T,
            upgrades_unlocked := U,
            cookies_earned := unitEarned gs0 bf n
              + computeTotalCps { gs0 with buffs := [] } * 1,
            buffs := unitBuffs nm bf (n + 1) }
      refine ⟨X + computeTotalCps { gs0 with buffs := [] } * 1,
        computeTotalCps { gs0 with buffs := [] }, T + 1, U3, fl3,
        q1 + 1, q2 + 1, q3 + computeTotalCps { gs0 with buffs := [] } * 1, ?_⟩
      simp only [simulateStep, hv, GameState.earn_cookies, GameState.update_buffs,
        unitBuffs_step nm bf n, hsh, hE1, Bool.false_eq_true, if_false]

lemma containsKey_unitBuffs (nm : String) (bf : Buff) (j : ℕ) :
    containsKey (unitBuffs nm bf j) nm = true ↔ (j : ℚ) < bf.duration := by
  unfold unitBuffs
  by_cases h : (j : ℚ) < bf.duration <;>
    simp [h, containsKey, assocLookup]

lemma pred_cast_lt_iff_ceil (k : ℕ) (hk : 1 ≤ k) (a : ℚ) :
    ((k - 1 : ℕ) : ℚ) < a ↔ (k : ℤ) ≤ Int.ceil a := by
  rw [Nat.cast_sub hk, Nat.cast_one,
      show ((k : ℚ) - 1) = (((k : ℤ) - 1 : ℤ) : ℚ) from by push_cast; ring,
      ← Int.lt_ceil]
  omega

/-- C9: in a simulation step of duration `dt` (with auto-ascend off, so
no ascension clears the buff dict), every active buff's remaining
duration drops by `dt` and exactly the buffs whose new duration is `<= 0`
are removed -- all simultaneous expiries fire in the same step -- so
every surviving buff has strictly positive duration; the step's
production accrues at the rate computed from the pre-decrement state;
and under unit steps a single buff of duration `D > 0` is still present
at the start of step `k` exactly when `k <= ceil D`, and multiplies that
step's production by the buff multiplier exactly when `k <= ceil D`. -/
theorem simulate_step_buff_semantics
    (s : SimState) (dt : ℚ)
    (hasc : s.auto_ascend_enabled = false)
    (hnd : (s.game_state.buffs.map (fun p => p.1)).Nodup)
    (gs0 : GameState) (fl : CatalogFlags) (nm : String) (bf : Buff) (k : ℕ)
    (hb : gs0.buffs = [(nm, bf)]) (hD : 0 < bf.duration) (hk : 1 ≤ k) :
    (simulateStep s dt).game_state.buffs
        = GameState.updateBuffsList s.game_state.buffs dt
    ∧ (∀ p ∈ s.game_state.buffs,
         (p.2.duration ≤ dt →
            assocLookup (simulateStep s dt).game_state.buffs p.1 = none)
         ∧ (dt < p.2.duration →
            assocLookup (simulateStep s dt).game_state.buffs p.1
              = some (Buff.mk (p.2.duration - dt) p.2.effect_cps_mult p.2.start_time)))
    ∧ (∀ q ∈ (simulateStep s dt).game_state.buffs, 0 < q.2.duration)
    ∧ (s.auto_click_enabled = false → s.cps_calculator.cache_valid = false →
         (simulateStep s dt).game_state.cookies_earned
           = s.game_state.cookies_earned + computeTotalCps s.game_state * dt)
    ∧ (containsKey
         ((fun t => simulateStep t 1)^[k - 1] (manualSimulator gs0 fl)).game_state.buffs
         nm = true ↔ (k : ℤ) ≤ Int.ceil bf.duration)
    ∧ (((fun t => simulateStep t 1)^[k] (manualSimulator gs0 fl)).game_state.cookies_earned
         - ((fun t => simulateStep t 1)^[k - 1]
             (manualSimulator gs0 fl)).game_state.cookies_earned
       = (if (k : ℤ) ≤ Int.ceil bf.duration then buffMultiplier gs0 else 1)
           * computeTotalCps { gs0 with buffs := [] }) := by
  obtain ⟨hbuffs, hearn⟩ := simulateStep_buffs_earned s dt hasc
  refine ⟨hbuffs, ?_, ?_, hearn, ?_, ?_⟩
  · intro p hp
    rw [hbuffs]
    exact updateBuffsList_lookup s.game_state.buffs dt hnd p hp
  · intro q hq
    rw [hbuffs] at hq
    exact updateBuffsList_pos s.game_state.buffs dt q hq
  · obtain ⟨X, R, T, U, fl2, q1, q2, q3, hrec⟩ :=
      unitBuff_invariant gs0 fl nm bf hb hD (k - 1)
    rw [hrec]
    show containsKey (unitBuffs nm bf (k - 1)) nm = true ↔ (k : ℤ) ≤ Int.ceil bf.duration
    rw [containsKey_unitBuffs]
    exact pred_cast_lt_iff_ceil k hk bf.duration
  · obtain ⟨X, R, T, U, fl2, q1, q2, q3, hrec⟩ :=
      unitBuff_invariant gs0 fl nm bf hb hD (k - 1)
    obtain ⟨X', R', T', U', fl2', q1', q2', q3', hrec'⟩ :=
      unitBuff_invariant gs0 fl nm bf hb hD k
    rw [hrec, hrec']
    show unitEarned gs0 bf k - unitEarned gs0 bf (k - 1) = _
    have hko : k - 1 + 1 = k := Nat.succ_pred_eq_of_pos hk
    have hE := unitEarned_succ gs0 bf (k - 1)
    rw [hko] at hE
    rw [hE, add_sub_cancel_left]
    by_cases hc : (k : ℤ) ≤ Int.ceil bf.duration
    · rw [if_pos ((pred_cast_lt_iff_ceil k hk bf.duration).mpr hc), if_pos hc]
      exact computeTotalCps_eq_mul gs0
    · rw [if_neg (fun h => hc ((pred_cast_lt_iff_ceil k hk bf.duration).mp h)),
          if_neg hc, one_mul]

/-- Witness for C9: the scenario state, unit steps, `k = 11 > ceil 10`. -/
theorem simulate_step_buff_semantics_witness :
    buffWitnessSim.auto_ascend_enabled = false
    ∧ (buffWitnessSim.game_state.buffs.map (fun p => p.1)).Nodup
    ∧ buffWitnessState.buffs = [("boost", Buff.mk 10 (some 7) 0)]
    ∧ (0 : ℚ) < (Buff.mk 10 (some 7) 0).duration
    ∧ 1 ≤ 11
    ∧ ((simulateStep buffWitnessSim 1).game_state.buffs
          = GameState.updateBuffsList buffWitnessSim.game_state.buffs 1
      ∧ (∀ p ∈ buffWitnessSim.game_state.buffs,
           (p.2.duration ≤ 1 →
              assocLookup (simulateStep buffWitnessSim 1).game_state.buffs p.1 = none)
           ∧ (1 < p.2.duration →
              assocLookup (simulateStep buffWitnessSim 1).game_state.buffs p.1
                = some (Buff.mk (p.2.duration - 1) p.2.effect_cps_mult p.2.start_time)))
      ∧ (∀ q ∈ (simulateStep buffWitnessSim 1).game_state.buffs, 0 < q.2.duration)
      ∧ (buffWitnessSim.auto_click_enabled = false →
           buffWitnessSim.cps_calculator.cache_valid = false →
           (simulateStep buffWitnessSim 1).game_state.cookies_earned
             = buffWitnessSim.game_state.cookies_earned
               + computeTotalCps buffWitnessSim.game_state * 1)
      ∧ (containsKey
           ((fun t => simulateStep t 1)^[11 - 1]
             (manualSimulator buffWitnessState initialCatalogFlags)).game_state.buffs
           "boost" = true
           ↔ (11 : ℤ) ≤ Int.ceil (Buff.mk 10 (some 7) 0).duration)
      ∧ (((fun t => simulateStep t 1)^[11]
             (manualSimulator buffWitnessState initialCatalogFlags)).game_state.cookies_earned
           - ((fun t => simulateStep t 1)^[11 - 1]
               (manualSimulator buffWitnessState initialCatalogFlags)).game_state.cookies_earned
         = (if (11 : ℤ) ≤ Int.ceil (Buff.mk 10 (some 7) 0).duration
            then buffMultiplier buffWitnessState else 1)
             * computeTotalCps { buffWitnessState with buffs := [] })) :=
  ⟨rfl, by simp [buffWitnessSim, manualSimulator, buffWitnessState], rfl,
   show (0 : ℚ) < 10 from by norm_num, by decide,
   simulate_step_buff_semantics buffWitnessSim 1 rfl
     (by simp [buffWitnessSim, manualSimulator, buffWitnessState])
     buffWitnessState initialCatalogFlags "boost" (Buff.mk 10 (some 7) 0) 11
     rfl (show (0 : ℚ) < 10 from by norm_num) (by decide)⟩

end CookieClicker
